import Mathlib

/-!
A shallow embedding of the intelli-nlp chat processor
(`src/project/src/utils/chatProcessor.ts`) together with proofs about it.

JS strings are modelled as `List Char` (exact for basic-multilingual-plane
text, where one UTF-16 code unit is one Unicode scalar and `charCodeAt`
agrees with `Char.toNat`); the 32-bit rolling hash is modelled on `Nat`
with explicit reduction `% 2 ^ 32`.  Every `Math.random()` selection is
modelled by an explicit `rand : Nat` argument reduced mod the size of the
selection pool, and every `Date.now()` by an explicit `now : Nat`
argument.  JS floating-point averaging (`Math.round(a / b)`) is modelled
by exact rational rounding, with the `NaN`/`Infinity` renderings of a zero
denominator made explicit.
-/

set_option linter.unusedVariables false
set_option maxRecDepth 8192

namespace IntelliNLP

/-- JS strings are modelled as lists of characters. -/
abbrev Str := List Char

/-- The whitespace characters matched by the JS `\s` class on the text in
scope: space, tab, LF, VT, FF, CR. -/
def jsIsSpace (c : Char) : Bool :=
  c == ' ' || c == '\t' || c == '\n' || c == '\x0b' || c == '\x0c' || c == '\r'

/-- The JS `\w` word-character class: ASCII letters, digits, underscore. -/
def jsIsWordChar (c : Char) : Bool := c.isAlphanum || c == '_'

/-- `toLowerCase()` (ASCII case folding, which is all the source relies on). -/
def lowerStr (s : Str) : Str := s.map Char.toLower

/-- Split on runs of characters satisfying `p`, discarding empty tokens.
This models JS `split(/\s+/)` composed with the empty-token filter that
every use in the source applies (JS split keeps one empty leading token
when the string starts with a separator; the source always filters it
away by a positive length condition). -/
def wordsBy (p : Char → Bool) (s : Str) : List Str :=
  (s.foldr (fun c acc =>
    if p c then [] :: acc
    else match acc with
      | [] => [[c]]
      | w :: ws => (c :: w) :: ws) []).filter (fun w => !w.isEmpty)

/-- JS `slice(-n)`: the last `n` elements of a list. -/
def takeLast {α : Type} (n : Nat) (l : List α) : List α := l.drop (l.length - n)

/-- `[...new Set(l)]`: deduplication keeping the first occurrence of each
element, preserving order (JS `Set` iteration order is insertion order). -/
def dedupFirst {α : Type} [DecidableEq α] : List α → List α
  | [] => []
  | x :: xs => x :: (dedupFirst xs).filter (fun y => decide (y ≠ x))

/-- JS `includes(pat)`: is `pat` a contiguous substring of `s`? -/
def containsSub (s pat : Str) : Bool := s.tails.any (fun t => pat.isPrefixOf t)

/-- JS `trim()`: strip whitespace from both ends. -/
def jsTrim (s : Str) : Str :=
  ((s.dropWhile jsIsSpace).reverse.dropWhile jsIsSpace).reverse

/-- Decimal rendering of a natural number, as a character list. -/
def natStr (n : Nat) : Str := (Nat.repr n).data

/-- Lowercase hexadecimal rendering of a natural number (`toString(16)`). -/
def hexStr (n : Nat) : Str := Nat.toDigits 16 n

/-- `Math.round(a / b)` for naturals: floor of `a / b + 1 / 2`, exact. -/
def jsRoundDiv (a b : Nat) : Nat := (2 * a + b) / (2 * b)

/-- The rendering of `Math.round(a / b)` in a template literal, including
the `NaN` and `Infinity` cases of a zero denominator. -/
def jsRoundDivStr (a b : Nat) : Str :=
  if b = 0 then (if a = 0 then "NaN".data else "Infinity".data)
  else natStr (jsRoundDiv a b)

/-- Count of non-overlapping occurrences of the literal pattern `pat` in
`s`, scanning left to right — the length of `s.match(new RegExp(pat, "g"))`
for a pattern with no metacharacters.  The fuel (one unit per scan
position) makes the recursion structural. -/
def countOccAux (pat : Str) (s : Str) (fuel : Nat) : Nat :=
  match fuel with
  | 0 => 0
  | fuel + 1 =>
    match s with
    | [] => 0
    | c :: cs =>
      if pat ≠ [] ∧ pat.isPrefixOf (c :: cs) then
        1 + countOccAux pat ((c :: cs).drop pat.length) fuel
      else countOccAux pat cs fuel

def countOcc (pat : Str) (s : Str) : Nat := countOccAux pat s s.length

/-- Count of matches of a literal alternation regex `p₁|p₂|…` in `s`:
at each position the first alternative that matches wins and the scan
resumes after it. -/
def countOccAltsAux (pats : List Str) (s : Str) (fuel : Nat) : Nat :=
  match fuel with
  | 0 => 0
  | fuel + 1 =>
    match s with
    | [] => 0
    | c :: cs =>
      match pats.find? (fun p => !p.isEmpty && p.isPrefixOf (c :: cs)) with
      | some p => 1 + countOccAltsAux pats ((c :: cs).drop p.length) fuel
      | none => countOccAltsAux pats cs fuel

def countOccAlts (pats : List Str) (s : Str) : Nat :=
  countOccAltsAux pats s s.length

/-- Count of matches of `new RegExp("\\b" + word + "\\b", "g")` for a word
made of word characters: occurrences of `word` delimited on both sides by
a word boundary, scanning left to right.  The running `Bool` is whether
the previous character was a word character. -/
def countWordOccAux (word : Str) (s : Str) (prevWord : Bool) (fuel : Nat) : Nat :=
  match fuel with
  | 0 => 0
  | fuel + 1 =>
    match s with
    | [] => 0
    | c :: cs =>
      if !prevWord ∧ word ≠ [] ∧ word.isPrefixOf (c :: cs) ∧
          !jsIsWordChar (((c :: cs).drop word.length).headD ' ') then
        1 + countWordOccAux word ((c :: cs).drop word.length) true fuel
      else countWordOccAux word cs (jsIsWordChar c) fuel

def countWordOcc (word : Str) (s : Str) : Nat :=
  countWordOccAux word s false s.length

/-- Matches of `/\b[A-Z][a-z]+/g`: at each word boundary an ASCII
uppercase letter followed by a nonempty maximal run of ASCII lowercase
letters.  The `Bool` argument records whether the previous character was
a word character (so whether a boundary precedes). -/
def capWordsAux (s : Str) (prevWord : Bool) (fuel : Nat) : List Str :=
  match fuel with
  | 0 => []
  | fuel + 1 =>
    match s with
    | [] => []
    | c :: cs =>
      if !prevWord ∧ c.isUpper ∧ cs.takeWhile Char.isLower ≠ [] then
        (c :: cs.takeWhile Char.isLower) ::
          capWordsAux (cs.drop (cs.takeWhile Char.isLower).length) true fuel
      else capWordsAux cs (jsIsWordChar c) fuel

def capWords (s : Str) : List Str := capWordsAux s false s.length

/-- Try to match `[A-Z][a-z]+` at the front of `s`. -/
def matchCapWord : Str → Option (Str × Str)
  | [] => none
  | c :: cs =>
    let ls := cs.takeWhile Char.isLower
    if c.isUpper ∧ ls ≠ [] then some (c :: ls, cs.drop ls.length) else none

/-- Cumulative candidate continuations `(\s+[A-Z][a-z]+)+` of a
capitalized phrase, each paired with the remainder after it. -/
def capExtensions : Str → Nat → List (Str × Str)
  | _, 0 => []
  | s, fuel + 1 =>
    let ws := s.takeWhile jsIsSpace
    if ws = [] then []
    else match matchCapWord (s.drop ws.length) with
      | none => []
      | some (w, rest) =>
        (ws ++ w, rest) ::
          (capExtensions rest fuel).map (fun m => (ws ++ w ++ m.1, m.2))

/-- A word boundary follows here: the next character is absent or not a
word character. -/
def boundaryAfter (s : Str) : Bool := !jsIsWordChar (s.headD ' ')

/-- Try `/[A-Z][a-z]+(?:\s+[A-Z][a-z]+)*\b/` at the front of `s`:
greedy, backtracking whole `\s+[A-Z][a-z]+` units while the trailing word
boundary fails (backtracking inside `[a-z]+` can never restore the
boundary, since the next character is then a lowercase letter). -/
def matchCapPhraseAt (s : Str) : Option (Str × Str) :=
  match matchCapWord s with
  | none => none
  | some (w, rest) =>
    (((w, rest) :: (capExtensions rest rest.length).map
        (fun m => (w ++ m.1, m.2))).filter
      (fun m => boundaryAfter m.2)).getLast?

/-- Matches of `/\b[A-Z][a-z]+(?:\s+[A-Z][a-z]+)*\b/g`, scanning left to
right with the scan resuming after each match. -/
def capPhrasesAux (s : Str) (prevWord : Bool) (fuel : Nat) : List Str :=
  match fuel with
  | 0 => []
  | fuel + 1 =>
    match s with
    | [] => []
    | c :: cs =>
      if !prevWord then
        match matchCapPhraseAt (c :: cs) with
        | some (m, rest) => m :: capPhrasesAux rest true fuel
        | none => capPhrasesAux cs (jsIsWordChar c) fuel
      else capPhrasesAux cs (jsIsWordChar c) fuel

def capPhrases (s : Str) : List Str := capPhrasesAux s false s.length

/-- Matches of `/"([^"]+)"/g` (quotes included), scanning left to right. -/
def quotedTermsAux (s : Str) (fuel : Nat) : List Str :=
  match fuel with
  | 0 => []
  | fuel + 1 =>
    match s with
    | [] => []
    | c :: cs =>
      if c = '"' then
        let run := cs.takeWhile (fun d => decide (d ≠ '"'))
        if run ≠ [] ∧ cs.drop run.length ≠ [] then
          ('"' :: (run ++ ['"'])) :: quotedTermsAux ((cs.drop run.length).drop 1) fuel
        else quotedTermsAux cs fuel
      else quotedTermsAux cs fuel

def quotedTerms (s : Str) : List Str := quotedTermsAux s s.length

/-- The suffix alternatives of the technical-term regex. -/
def technicalSuffixes : List Str :=
  ["tion".data, "ment".data, "ness".data, "ity".data, "ism".data,
   "ology".data, "graphy".data]

/-- Matches of `/\b\w+(?:tion|ment|ness|ity|ism|ology|graphy)\b/g`: the
maximal word-character runs that end in one of the suffixes and are
strictly longer than it (`\w+` needs at least one character before the
suffix, and the trailing `\b` forces the suffix to sit at the end of the
run). -/
def suffixTerms (s : Str) : List Str :=
  (wordsBy (fun c => !jsIsWordChar c) s).filter
    (fun w => technicalSuffixes.any
      (fun suf => suf.isSuffixOf w && decide (suf.length < w.length)))

/-- Four consecutive ASCII digits occur somewhere in `s`. -/
def hasFourDigits : Str → Bool
  | a :: b :: c :: d :: rest =>
    (a.isDigit && b.isDigit && c.isDigit && d.isDigit)
      || hasFourDigits (b :: c :: d :: rest)
  | _ => false

/-- Count of matches of `/\([^)]*\d{4}[^)]*\)/g`: an opening parenthesis,
a close-free span containing four consecutive digits, then the first
following close parenthesis; the scan resumes after each match. -/
def countCitationsAux (s : Str) (fuel : Nat) : Nat :=
  match fuel with
  | 0 => 0
  | fuel + 1 =>
    match s with
    | [] => 0
    | c :: cs =>
      if c = '(' then
        let span := cs.takeWhile (fun d => decide (d ≠ ')'))
        if hasFourDigits span ∧ cs.drop span.length ≠ [] then
          1 + countCitationsAux ((cs.drop span.length).drop 1) fuel
        else countCitationsAux cs fuel
      else countCitationsAux cs fuel

def countCitations (s : Str) : Nat := countCitationsAux s s.length

/-- Remainders after consuming one or two leading digits (`\d{1,2}`). -/
def afterOneOrTwoDigits : Str → List Str
  | [] => []
  | a :: rest =>
    if a.isDigit then
      match rest with
      | b :: rest2 => if b.isDigit then [rest, rest2] else [rest]
      | [] => [rest]
    else []

def startsWithFourDigits (s : Str) : Bool :=
  match s with
  | a :: b :: c :: d :: _ => a.isDigit && b.isDigit && c.isDigit && d.isDigit
  | _ => false

/-- Match `\d{1,2} sep \d{1,2} sep \d{4}` at the front of `s`. -/
def dateNumericAt (sep : Char) (s : Str) : Bool :=
  (afterOneOrTwoDigits s).any fun r1 =>
    match r1 with
    | c :: r2 =>
      (c == sep) && (afterOneOrTwoDigits r2).any fun r3 =>
        match r3 with
        | c2 :: r4 => (c2 == sep) && startsWithFourDigits r4
        | [] => false
    | [] => false

def monthNames : List Str :=
  ["january".data, "february".data, "march".data, "april".data, "may".data,
   "june".data, "july".data, "august".data, "september".data,
   "october".data, "november".data, "december".data]

/-- The formal-letter date test
`/\d{1,2}\/\d{1,2}\/\d{4}|\d{1,2}-\d{1,2}-\d{4}|january|…|december/i.test`. -/
def hasDateInfo (s : Str) : Bool :=
  s.tails.any (fun t => dateNumericAt '/' t)
    || s.tails.any (fun t => dateNumericAt '-' t)
    || monthNames.any (fun m => containsSub (lowerStr s) m)

/-- Count of matches of the inline-code regex: three backticks, or a
backtick-delimited nonempty backtick-free span. -/
def countCodeTicksAux (s : Str) (fuel : Nat) : Nat :=
  match fuel with
  | 0 => 0
  | fuel + 1 =>
    match s with
    | [] => 0
    | c :: cs =>
      if ("```".data).isPrefixOf (c :: cs) then
        1 + countCodeTicksAux ((c :: cs).drop 3) fuel
      else if c = '`' then
        let run := cs.takeWhile (fun d => decide (d ≠ '`'))
        if run ≠ [] ∧ cs.drop run.length ≠ [] then
          1 + countCodeTicksAux ((cs.drop run.length).drop 1) fuel
        else countCodeTicksAux cs fuel
      else countCodeTicksAux cs fuel

def countCodeTicks (s : Str) : Nat := countCodeTicksAux s s.length

def isBulletChar (c : Char) : Bool := c == '-' || c == '*' || c == '+'

/-- Per-line model of one match of `/^\s*[-*+]\s/m`: leading whitespace,
a bullet character, then a whitespace character (the line break itself
when the line ends there and a further line follows). -/
def lineHasBullet (line : Str) (hasNext : Bool) : Bool :=
  match line.dropWhile jsIsSpace with
  | c :: rest =>
    isBulletChar c && (match rest with | d :: _ => jsIsSpace d | [] => hasNext)
  | [] => false

/-- Per-line model of one match of `/^\s*\d+\.\s/m`. -/
def lineHasNumber (line : Str) (hasNext : Bool) : Bool :=
  let rest := line.dropWhile jsIsSpace
  let ds := rest.takeWhile Char.isDigit
  if ds ≠ [] then
    match rest.drop ds.length with
    | '.' :: d :: _ => jsIsSpace d
    | ['.'] => hasNext
    | _ => false
  else false

/-- Count of line-anchored matches over the whole text, one test per
line.  (The JS `gm` regexes let `\s` cross a line break; on the inputs in
scope each match lies within one line plus its terminating break, which
this per-line model reproduces.) -/
def countMarkedLines (p : Str → Bool → Bool) (s : Str) : Nat :=
  let lines := s.splitOn '\n'
  lines.enum.countP (fun li => p li.2 (decide (li.1 + 1 < lines.length)))

def isUpperOrUnderscore (c : Char) : Bool := c.isUpper || c == '_'

/-- `/[A-Z_]{3,}/.test`: three consecutive characters from `[A-Z_]`. -/
def hasUpperRun3 : Str → Bool
  | a :: b :: c :: rest =>
    (isUpperOrUnderscore a && isUpperOrUnderscore b && isUpperOrUnderscore c)
      || hasUpperRun3 (b :: c :: rest)
  | _ => false

/-- `split(/\n\s*\n/)`: split at each newline whose following whitespace
run contains a further newline; the separator greedily extends to the
last newline of the run.  Empty fragments are kept (the source filters
them afterwards). -/
def splitParasAux (cur : Str) (s : Str) (fuel : Nat) : List Str :=
  match fuel with
  | 0 => [cur.reverse]
  | fuel + 1 =>
    match s with
    | [] => [cur.reverse]
    | c :: cs =>
      if c = '\n' then
        let run := cs.takeWhile jsIsSpace
        let tailSpaces := (run.reverse.takeWhile (fun d => decide (d ≠ '\n'))).length
        if run.length ≠ tailSpaces then
          cur.reverse :: splitParasAux [] (cs.drop (run.length - tailSpaces)) fuel
        else splitParasAux (c :: cur) cs fuel
      else splitParasAux (c :: cur) cs fuel

def splitParas (s : Str) : List Str := splitParasAux [] s s.length

/-! ## Data model -/

/-- The attachment categories of the source's `Attachment` interface. -/
inductive AttachmentType
  | text | image | pdf | ppt | doc | code
deriving DecidableEq, Repr

/-- The string value of a category, as interpolated into templates. -/
def AttachmentType.str : AttachmentType → Str
  | .text => "text".data
  | .image => "image".data
  | .pdf => "pdf".data
  | .ppt => "ppt".data
  | .doc => "doc".data
  | .code => "code".data

/-- `type.toUpperCase()`. -/
def AttachmentType.upper (t : AttachmentType) : Str := t.str.map Char.toUpper

structure Attachment where
  id : Str
  name : Str
  type : AttachmentType
  size : Nat
  content : Option Str := none
  url : Option Str := none
deriving DecidableEq, Repr

inductive Role
  | user | assistant | system
deriving DecidableEq, Repr

def Role.str : Role → Str
  | .user => "user".data
  | .assistant => "assistant".data
  | .system => "system".data

/-- A turn of the conversation history; `timestamp` carries the
`Date.now()` instant. -/
structure ChatMessage where
  role : Role
  content : Str
  attachments : List Attachment := []
  timestamp : Nat := 0
deriving DecidableEq, Repr

inductive Tone
  | formal | casual | technical | friendly
deriving DecidableEq, Repr

structure ConversationContext where
  topics : List Str
  userPreferences : List Str
  conversationTone : Tone
  previousQuestions : List Str
  attachmentHistory : List AttachmentType
deriving DecidableEq, Repr

/-- The context default values. -/
def initialContext : ConversationContext :=
  { topics := [], userPreferences := [], conversationTone := .friendly,
    previousQuestions := [], attachmentHistory := [] }

/-- The system turn pushed by `initializeSystemContext`. -/
def systemMessage (now : Nat) : ChatMessage :=
  { role := .system,
    content := ("You are IntelliNLP, an advanced AI assistant capable of intelligent text processing, analysis, and natural conversation.").data,
    timestamp := now }

/-! ## Intent classifier -/

def greetingStarts : List Str :=
  ["hi".data, "hello".data, "hey".data, "good morning".data,
   "good afternoon".data, "good evening".data]

def questionStarts : List Str :=
  ["what".data, "how".data, "why".data, "when".data, "where".data,
   "who".data, "which".data, "can you".data, "could you".data,
   "will you".data, "would you".data, "are you".data, "do you".data,
   "did you".data, "have you".data, "is it".data, "does it".data]

def requestStarts : List Str :=
  ["please".data, "can you".data, "could you".data, "would you".data,
   "help me".data, "i need".data, "i want".data, "create".data,
   "make".data, "generate".data, "write".data, "explain".data,
   "analyze".data, "summarize".data]

def opinionStarts : List Str :=
  ["i think".data, "i believe".data, "in my opinion".data,
   "it seems".data, "i feel".data, "i noticed".data, "i found".data]

/-- A leading-anchor alternation regex `/^(p₁|p₂|…)/` test. -/
def startsWithAny (pats : List Str) (s : Str) : Bool :=
  pats.any (fun p => p.isPrefixOf s)

/-- `analyzeMessageType` (source lines 931–960): ordered intent rules,
first match wins, all on the lowercased content. -/
def analyzeMessageType (content : Str) : String :=
  let lowerContent := lowerStr content
  if startsWithAny greetingStarts lowerContent then "greeting"
  else if lowerContent.contains '?'
      || startsWithAny questionStarts lowerContent then "question"
  else if startsWithAny requestStarts lowerContent then "request"
  else if containsSub lowerContent "analyze".data
      || containsSub lowerContent "review".data
      || containsSub lowerContent "examine".data
      || containsSub lowerContent "evaluate".data then "analysis"
  else if startsWithAny opinionStarts lowerContent then "opinion"
  else "conversation"

/-! ## Context tracker -/

/-- `extractTopics` (lines 1311–1327). -/
def extractTopics (content : Str) : List Str :=
  let words := wordsBy jsIsSpace (lowerStr content)
  let capitalizedWords := capWords content
  let technicalTerms := words.filter (fun word =>
    decide (6 < word.length) &&
    (containsSub word "tion".data || containsSub word "ment".data
      || containsSub word "ness".data || containsSub word "ing".data))
  (dedupFirst (capitalizedWords ++ technicalTerms)).take 5

/-- `detectTone` (lines 1329–1342). -/
def detectTone (content : Str) : Tone :=
  let lowerContent := lowerStr content
  if containsSub lowerContent "please".data
      || containsSub lowerContent "thank you".data
      || containsSub lowerContent "appreciate".data then .formal
  else if containsSub lowerContent "hey".data
      || containsSub lowerContent "cool".data
      || containsSub lowerContent "awesome".data then .casual
  else if containsSub lowerContent "algorithm".data
      || containsSub lowerContent "function".data
      || containsSub lowerContent "implementation".data then .technical
  else .friendly

def interrogativeStarts : List Str :=
  ["what".data, "how".data, "why".data, "when".data, "where".data,
   "who".data, "which".data, "can".data, "could".data, "will".data,
   "would".data, "are".data, "do".data, "did".data, "have".data,
   "is".data, "does".data]

/-- `isQuestion` (lines 1344–1346): contains `?`, or the case-folded text
begins with one of the interrogative openers as a raw character prefix —
the `/^(…)/i` regex has no trailing word boundary. -/
def isQuestion (content : Str) : Bool :=
  content.contains '?' || startsWithAny interrogativeStarts (lowerStr content)

/-- The topics update inside `updateContext` (line 85):
`[...new Set([...topics, ...newTopics])].slice(-10)`. -/
def mergeTopics (old newTopics : List Str) : List Str :=
  takeLast 10 (dedupFirst (old ++ newTopics))

/-- `updateContext` (lines 82–100). -/
def updateContext (ctx : ConversationContext) (content : Str)
    (attachments : List Attachment) : ConversationContext :=
  { topics := mergeTopics ctx.topics (extractTopics content),
    userPreferences := ctx.userPreferences,
    conversationTone := detectTone content,
    previousQuestions :=
      if isQuestion content then ctx.previousQuestions ++ [content]
      else ctx.previousQuestions,
    attachmentHistory :=
      if attachments.isEmpty then ctx.attachmentHistory
      else dedupFirst (ctx.attachmentHistory ++ attachments.map (·.type)) }

/-! ## Shared extraction helpers of the response composer -/

def questionWords : List Str :=
  ["what".data, "how".data, "why".data, "when".data, "where".data,
   "who".data, "which".data, "can you".data, "could you".data,
   "will you".data, "would you".data, "are you".data, "do you".data]

/-- `extractQuestionWord` (lines 1286–1291). -/
def extractQuestionWord (content : Str) : Str :=
  (questionWords.find? (fun word => word.isPrefixOf (lowerStr content))).getD "what".data

def actionWords : List Str :=
  ["analyze".data, "create".data, "make".data, "generate".data,
   "explain".data, "summarize".data, "help".data, "write".data,
   "review".data]

/-- `extractActionWord` (lines 1293–1298): the first word of
`actionWords` — in list order, not utterance order — contained anywhere
in the lowercased content; default `help`. -/
def extractActionWord (content : Str) : Str :=
  (actionWords.find? (fun word => containsSub (lowerStr content) word)).getD "help".data

def stopWords : List Str :=
  ["the".data, "a".data, "an".data, "and".data, "or".data, "but".data,
   "in".data, "on".data, "at".data, "to".data, "for".data, "of".data,
   "with".data, "by".data, "can".data, "you".data, "please".data,
   "help".data, "me".data]

/-- `extractMainTopic` (lines 1300–1309): lowercase, strip characters
outside `\w`/`\s`, split on whitespace, keep non-stop-words longer than
2, join the first three with spaces, default `this topic`. -/
def extractMainTopic (content : Str) : Str :=
  let words := (wordsBy jsIsSpace
      ((lowerStr content).filter (fun c => jsIsWordChar c || jsIsSpace c))).filter
    (fun word => decide (2 < word.length) && !stopWords.contains word)
  if (words.take 3).isEmpty then "this topic".data
  else List.intercalate " ".data (words.take 3)

/-- Formatting of one look-back line in `buildConversationContext`. -/
def lookbackLine (msg : ChatMessage) : Str :=
  msg.role.str ++ ": ".data ++ msg.content.take 100 ++ "...".data

/-- `buildConversationContext` (lines 962–970): the last four history
entries, minus system turns, each truncated to 100 characters, joined by
newlines. -/
def buildConversationContext (history : List ChatMessage) : Str :=
  List.intercalate "\n".data
    (((takeLast 4 history).filter
        (fun msg => decide (msg.role ≠ .system))).map lookbackLine)

/-! ## Content fingerprint and file-size rendering -/

/-- The hash source string `${name}-${size}-${type}-${Date.now()}`. -/
def hashSource (a : Attachment) (now : Nat) : Str :=
  a.name ++ "-".data ++ natStr a.size ++ "-".data ++ a.type.str
    ++ "-".data ++ natStr now

/-- One step of the rolling hash `hash = ((hash << 5) - hash) + char`
followed by the 32-bit truncation `hash = hash & hash`, carried on the
unsigned residue mod `2 ^ 32` — the signed JS value and this residue are
the same 32-bit pattern, so `(h << 5) - h + c` reduces to `31·h + c`. -/
def hashStep (h : Nat) (c : Char) : Nat := (31 * h + c.toNat) % 4294967296

/-- The 32-bit fold of `generateContentHash`, as an unsigned residue. -/
def hashFold (s : Str) : Nat := s.foldl hashStep 0

/-- The signed 32-bit reading of an unsigned residue. -/
def toSigned32 (u : Nat) : Int :=
  if u < 2147483648 then (u : Int) else (u : Int) - 4294967296

/-- `generateContentHash` (lines 136–146): fold the hash source, then
`Math.abs(hash).toString(16)` — lowercase hexadecimal of the absolute
value of the signed 32-bit result. -/
def generateContentHash (a : Attachment) (now : Nat) : Str :=
  hexStr (toSigned32 (hashFold (hashSource a now))).natAbs

def sizeUnits : List Str := ["Bytes".data, "KB".data, "MB".data, "GB".data]

/-- Decimal rendering of a number of hundredths:
`parseFloat(x.toFixed(2))` — two decimals with trailing zeros (and a
bare trailing point) dropped. -/
def formatHundredths (h : Nat) : Str :=
  let ip := natStr (h / 100)
  let fr := h % 100
  if fr = 0 then ip
  else if fr % 10 = 0 then ip ++ ".".data ++ natStr (fr / 10)
  else ip ++ ".".data ++ (if fr < 10 then "0".data ++ natStr fr else natStr fr)

/-- `formatFileSize` (lines 1393–1399).  `Math.floor(Math.log bytes /
Math.log 1024)` is modelled as `Nat.log 1024 bytes` and the
floating-point `toFixed(2)` as exact rounding to hundredths. -/
def formatFileSize (bytes : Nat) : Str :=
  if bytes = 0 then "0 Bytes".data
  else
    let i := Nat.log 1024 bytes
    let p := 1024 ^ i
    formatHundredths ((200 * bytes + p) / (2 * p)) ++ " ".data
      ++ sizeUnits.getD i "undefined".data

/-! ## Attachment analyzer: images -/

/-- `filename.split('.').pop()`. -/
def lastExt (filename : Str) : Str := (filename.splitOn '.').getLastD filename

/-- `analyzeImageContent` (lines 148–275). -/
def analyzeImageContent (a : Attachment) (contentHash : Str) : Str :=
  let filename := lowerStr a.name
  let isLargeImage := decide (1000000 < a.size)
  let isMediumImage := decide (100000 < a.size)
  let body :=
    if containsSub filename "chart".data || containsSub filename "graph".data
        || containsSub filename "plot".data then
      ("**Visual Content Type**: Data Visualization\n**Detected Elements**:\n• Statistical charts with quantitative data representation\n• Color-coded data series and categorical information\n• Axis labels indicating measurement scales and units\n• Legend components explaining data categories\n• Title and subtitle providing context for the visualization\n\n").data
      ++ (if isLargeImage then
            ("**Quality Assessment**: High-resolution chart suitable for detailed analysis\n**Data Density**: Rich dataset with multiple data points and series\n").data
          else
            ("**Format**: Compact visualization optimized for quick reference\n").data)
      ++ ("**Analysis Potential**: This chart can be analyzed for trends, patterns, correlations, and statistical insights. The visual data representation makes it ideal for extracting quantitative information and drawing data-driven conclusions.").data
    else if containsSub filename "screenshot".data
        || containsSub filename "screen".data
        || containsSub filename "capture".data then
      ("**Visual Content Type**: Interface Screenshot\n**Interface Elements Detected**:\n• User interface components (buttons, menus, forms)\n• Navigation elements and toolbar structures\n• Text content and informational displays\n• Window layouts and application interfaces\n• Status indicators and system notifications\n\n**Context Analysis**: This screenshot captures a specific moment in a digital interface, showing:\n").data
      ++ (if isMediumImage then
            ("• Detailed interface with multiple functional elements\n• Clear text and visual components for analysis\n").data
          else [])
      ++ ("• Workflow or process documentation potential\n• User experience and interface design insights\n\n**Utility**: Perfect for interface analysis, troubleshooting documentation, feature explanation, or user experience evaluation.").data
    else if containsSub filename "document".data
        || containsSub filename "scan".data
        || containsSub filename "page".data then
      ("**Visual Content Type**: Document Scan/Page\n**Document Structure**:\n• Formatted text layout with structured paragraphs\n• Headers, subheadings, and hierarchical organization\n• Possible tables, lists, and formatted content\n• Margins, spacing, and professional document formatting\n• Potential signatures, stamps, or official markings\n\n").data
      ++ (if isLargeImage then
            ("**Text Quality**: High-resolution scan suitable for OCR and text extraction\n**Content Density**: Substantial textual content for comprehensive analysis\n").data
          else [])
      ++ ("**Processing Capabilities**: This document image can be processed for:\n• Text extraction and content analysis\n• Document structure and formatting analysis\n• Information extraction and summarization\n• Content verification and cross-referencing\n\n**Analysis Value**: Excellent source for detailed text analysis, content extraction, and document processing workflows.").data
    else if containsSub filename "diagram".data
        || containsSub filename "flow".data
        || containsSub filename "schema".data then
      ("**Visual Content Type**: Technical Diagram/Flowchart\n**Structural Elements**:\n• Process flow indicators and directional arrows\n• Decision points and branching logic\n• Component relationships and connections\n• Labels, annotations, and explanatory text\n• Hierarchical or sequential organization\n\n**Technical Analysis**: This diagram represents:\n• Systematic processes or workflows\n• Logical relationships between components\n• Decision trees or procedural steps\n• System architecture or design patterns\n\n**Application**: Ideal for process analysis, system understanding, workflow optimization, and technical documentation.").data
    else
      ("**Visual Content Type**: General Image Content\n**Image Characteristics**:\n").data
      ++ (if isLargeImage then
            ("• High-resolution image with detailed visual information\n• Rich color depth and visual complexity\n• Suitable for detailed visual analysis and processing\n").data
          else if isMediumImage then
            ("• Standard resolution with clear visual elements\n• Balanced file size for efficient processing\n• Good quality for analysis and discussion\n").data
          else
            ("• Compact image optimized for quick viewing\n• Efficient file size for rapid processing\n• Suitable for thumbnail or preview analysis\n").data)
      ++ (if lastExt filename = "png".data then
            ("• PNG format with potential transparency support\n• Lossless compression maintaining image quality\n").data
          else if lastExt filename = "jpg".data ∨ lastExt filename = "jpeg".data then
            ("• JPEG format optimized for photographic content\n• Compressed format balancing quality and file size\n").data
          else [])
      ++ ("\n**Visual Analysis Potential**:\n• Color composition and visual design analysis\n• Object detection and content identification\n• Spatial relationships and layout examination\n• Context-based interpretation and insights\n\n**Discussion Value**: This image provides visual context that enhances our conversation and can be referenced for detailed analysis based on your specific interests or questions.").data
  ("🖼️ **Image Content Analysis**\n\n").data ++ body
    ++ ("\n\n**Technical Details**: ").data ++ a.name ++ (" (").data
    ++ formatFileSize a.size ++ (") | Content ID: ").data ++ contentHash.take 8

/-! ## Attachment analyzer: text -/

def isSentenceSep (c : Char) : Bool := c == '.' || c == '!' || c == '?'

/-- `content.split(/\s+/).filter(w => w.length > 0)`. -/
def wordsOf (content : Str) : List Str := wordsBy jsIsSpace content

/-- `content.split(/[.!?]+/).filter(s => s.trim().length > 5)` (split
keeps empty fragments; the length filter discards them, so splitting
without empty tokens is equivalent). -/
def sentencesOf (content : Str) : List Str :=
  (wordsBy isSentenceSep content).filter (fun s => decide (5 < (jsTrim s).length))

/-- `analyzeCodeInText` (lines 363–395). -/
def analyzeCodeInText (content : Str) : Str :=
  let lines := content.splitOn '\n'
  let codeLines := lines.filter (fun line =>
    decide (0 < (jsTrim line).length)
      && !(("//".data).isPrefixOf (jsTrim line))
      && !(("#".data).isPrefixOf (jsTrim line)))
  let language :=
    if containsSub content "def ".data && containsSub content "import ".data then
      "Python".data
    else if containsSub content "function".data && containsSub content "const ".data then
      "JavaScript".data
    else if containsSub content "public class".data && containsSub content "System.out".data then
      "Java".data
    else if containsSub content "interface ".data && containsSub content ": ".data then
      "TypeScript".data
    else "Unknown".data
  let functions :=
    countOccAlts ["function".data, "def ".data, "public ".data, "private ".data] content
  let classes := countOccAlts ["class ".data, "interface ".data] content
  let imports := countOccAlts ["import ".data, "require".data, "#include".data] content
  ("**Programming Content Detected**:\n• **Language**: ").data ++ language
    ++ ("\n• **Code Lines**: ").data ++ natStr codeLines.length
    ++ (" lines of executable code\n• **Functions/Methods**: ").data ++ natStr functions
    ++ ("\n• **Classes/Interfaces**: ").data ++ natStr classes
    ++ ("\n• **Dependencies**: ").data ++ natStr imports
    ++ (" import statements\n\n**Code Analysis Features**:\n• Syntax validation and error detection\n• Code quality assessment and suggestions\n• Function and class documentation\n• Performance optimization recommendations\n").data

def academicTerms : List Str :=
  ["hypothesis".data, "methodology".data, "analysis".data,
   "significant".data, "correlation".data, "data".data, "research".data,
   "study".data]

/-- `analyzeAcademicText` (lines 397–427). -/
def analyzeAcademicText (content : Str) : Str :=
  let lc := lowerStr content
  let sections :=
    (if containsSub lc "abstract".data then ["Abstract".data] else [])
    ++ (if containsSub lc "introduction".data then ["Introduction".data] else [])
    ++ (if containsSub lc "methodology".data || containsSub lc "methods".data then
          ["Methodology".data] else [])
    ++ (if containsSub lc "results".data then ["Results".data] else [])
    ++ (if containsSub lc "discussion".data then ["Discussion".data] else [])
    ++ (if containsSub lc "conclusion".data then ["Conclusion".data] else [])
    ++ (if containsSub lc "references".data || containsSub lc "bibliography".data then
          ["References".data] else [])
  let citations := countCitations content
  let academicCount := (academicTerms.filter (fun t => containsSub lc t)).length
  ("**Academic Document Structure**:\n• **Sections Identified**: ").data
    ++ List.intercalate ", ".data sections
    ++ ("\n• **Citations**: Approximately ").data ++ natStr citations
    ++ (" citations found\n• **Academic Rigor**: ").data ++ natStr academicCount
    ++ ("/8 academic indicators present\n\n**Research Analysis Capabilities**:\n• Extract research questions and hypotheses\n• Summarize methodology and findings\n• Identify key contributions and implications\n• Analyze argument structure and evidence\n").data

/-- `analyzeFormalLetter` (lines 429–447). -/
def analyzeFormalLetter (content : Str) : Str :=
  let lc := lowerStr content
  let hasHeader := containsSub lc "dear".data || containsSub lc "to whom".data
  let hasClosing := containsSub lc "sincerely".data || containsSub lc "regards".data
    || containsSub lc "yours".data
  let hasDate := hasDateInfo content
  ("**Formal Correspondence Structure**:\n• **Greeting**: ").data
    ++ (if hasHeader then ("Professional greeting present").data
        else ("Informal or missing greeting").data)
    ++ ("\n• **Closing**: ").data
    ++ (if hasClosing then ("Formal closing present").data
        else ("Informal or missing closing").data)
    ++ ("\n• **Date**: ").data
    ++ (if hasDate then ("Date information included").data
        else ("No date information found").data)
    ++ ("\n\n**Communication Analysis**:\n• Tone and formality assessment\n• Purpose and intent identification\n• Professional language evaluation\n• Response and action item extraction\n").data

/-- `analyzeTechnicalDoc` (lines 449–468). -/
def analyzeTechnicalDoc (content : Str) : Str :=
  let hasTodos := countOccAlts ["TODO".data, "FIXME".data, "HACK".data, "NOTE:".data] content
  let hasCodeBlocks := countCodeTicks content
  let hasLists := countMarkedLines lineHasBullet content
  let hasNumbers := countMarkedLines lineHasNumber content
  ("**Technical Documentation Features**:\n• **Action Items**: ").data
    ++ natStr hasTodos
    ++ (" TODO/FIXME items\n• **Code Examples**: ").data ++ natStr hasCodeBlocks
    ++ (" code blocks or inline code\n• **Lists**: ").data ++ natStr hasLists
    ++ (" bulleted lists\n• **Procedures**: ").data ++ natStr hasNumbers
    ++ (" numbered steps\n\n**Documentation Analysis**:\n• Extract procedures and workflows\n• Identify technical requirements\n• Analyze code examples and snippets\n• Track action items and dependencies\n").data

def themeKeywords : List (Str × List Str) :=
  [("Technology".data,
    ["technology".data, "digital".data, "software".data, "computer".data,
     "internet".data, "data".data, "algorithm".data]),
   ("Business".data,
    ["business".data, "company".data, "market".data, "strategy".data,
     "management".data, "profit".data, "revenue".data]),
   ("Science".data,
    ["research".data, "study".data, "experiment".data, "theory".data,
     "analysis".data, "discovery".data]),
   ("Education".data,
    ["learning".data, "education".data, "teaching".data, "student".data,
     "knowledge".data, "training".data]),
   ("Health".data,
    ["health".data, "medical".data, "treatment".data, "patient".data,
     "therapy".data, "clinical".data]),
   ("Environment".data,
    ["environment".data, "climate".data, "nature".data,
     "sustainability".data, "conservation".data])]

/-- `identifyContentThemes` (lines 494–515). -/
def identifyContentThemes (content : Str) : List Str :=
  let contentLower := lowerStr content
  (themeKeywords.filter (fun tk =>
    decide (2 ≤ (tk.2.filter (fun k => containsSub contentLower k)).length))).map
    (fun tk => tk.1)

/-- `analyzeGeneralText` (lines 471–492). -/
def analyzeGeneralText (content : Str) : Str :=
  let sentences := sentencesOf content
  let paragraphs := (splitParas content).filter (fun p => decide (0 < (jsTrim p).length))
  let themes := identifyContentThemes content
  ("**Content Structure**:\n• **Paragraphs**: ").data ++ natStr paragraphs.length
    ++ (" distinct paragraphs\n• **Average sentences per paragraph**: ").data
    ++ jsRoundDivStr sentences.length paragraphs.length ++ ("\n").data
    ++ (if themes.length ≠ 0 then
          ("• **Main Themes**: ").data ++ List.intercalate ", ".data themes ++ ("\n").data
        else [])
    ++ ("\n**Content Analysis**:\n• Comprehensive text summarization\n• Theme and topic extraction\n• Sentiment and tone analysis\n• Key information identification\n").data

/-- `extractDetailedTopics` (lines 517–533). -/
def extractDetailedTopics (content : Str) : List Str :=
  let topics :=
    (capPhrases content).take 5
    ++ ((quotedTerms content).map (fun q => q.filter (fun c => decide (c ≠ '"')))).take 3
    ++ (suffixTerms content).take 3
  (dedupFirst topics).filter (fun t => decide (3 < t.length) && decide (t.length < 50))

/-- The empty/minimal-content notice of `analyzeTextContent` (line 280). -/
def textEmptyNotice (name : Str) : Str :=
  ("📄 **Text File**: ").data ++ name
    ++ (" appears to be empty or contains minimal content. Please ensure the file has readable text content for analysis.").data

/-- The document-metrics block of `analyzeTextContent` (lines 290–295). -/
def textMetricsBlock (lineCount wordCount sentenceCount charCount : Nat) : Str :=
  ("**Document Metrics**:\n• **Lines**: ").data ++ natStr lineCount
    ++ (" lines of text\n• **Words**: ").data ++ natStr wordCount
    ++ (" words\n• **Sentences**: ").data ++ natStr sentenceCount
    ++ (" sentences\n• **Characters**: ").data ++ natStr charCount
    ++ (" characters\n• **Average words per sentence**: ").data
    ++ jsRoundDivStr wordCount sentenceCount ++ ("\n\n").data

/-- `analyzeTextContent` (lines 277–361).  The floating-point
`avgWordsPerSentence` comparisons are modelled exactly on rationals, with
the `NaN`/`Infinity` cases of zero sentences made explicit. -/
def analyzeTextContent (a : Attachment) : Str :=
  let content := a.content.getD []
  if content.length < 10 then textEmptyNotice a.name
  else
    let lines := content.splitOn '\n'
    let words := wordsOf content
    let sentences := sentencesOf content
    let contentLower := lowerStr content
    let ct :=
      if containsSub content "function".data || containsSub content "class".data
          || containsSub content "import".data || containsSub content "def ".data then
        ("Programming Code".data, analyzeCodeInText content)
      else if containsSub contentLower "abstract".data
          || containsSub contentLower "introduction".data
          || containsSub contentLower "methodology".data then
        ("Academic Document".data, analyzeAcademicText content)
      else if containsSub contentLower "dear".data
          || containsSub contentLower "sincerely".data
          || containsSub contentLower "regards".data then
        ("Formal Correspondence".data, analyzeFormalLetter content)
      else if containsSub content "TODO".data || containsSub content "FIXME".data
          || containsSub content "NOTE:".data then
        ("Technical Documentation".data, analyzeTechnicalDoc content)
      else ("General Text".data, analyzeGeneralText content)
    let topics := extractDetailedTopics content
    let topicsBlock :=
      if topics.length ≠ 0 then
        ("\n**Key Topics Identified**:\n").data
          ++ (topics.take 5).enum.foldl (fun acc it =>
               acc ++ natStr (it.1 + 1) ++ (". ").data ++ it.2 ++ ("\n").data) []
      else []
    let complexityLine :=
      if sentences.length = 0 then
        if words.length = 0 then
          ("• **Complexity**: Clear, concise writing style\n").data
        else
          ("• **Complexity**: Complex sentences with detailed explanations\n").data
      else if 20 * sentences.length < words.length then
        ("• **Complexity**: Complex sentences with detailed explanations\n").data
      else if 15 * sentences.length < words.length then
        ("• **Complexity**: Moderate complexity with balanced structure\n").data
      else ("• **Complexity**: Clear, concise writing style\n").data
    let formalWords :=
      ["therefore".data, "furthermore".data, "consequently".data,
       "moreover".data, "nevertheless".data]
    let formalCount := (formalWords.filter (fun w => containsSub contentLower w)).length
    let toneLine :=
      if 2 < formalCount then
        ("• **Tone**: Formal academic or professional writing\n").data
      else if containsSub contentLower "i think".data
          || containsSub contentLower "you know".data then
        ("• **Tone**: Conversational and informal\n").data
      else ("• **Tone**: Neutral informational style\n").data
    ("📄 **Text Document Analysis**\n\n").data
      ++ textMetricsBlock lines.length words.length sentences.length content.length
      ++ ("**Content Type**: ").data ++ ct.1 ++ ("\n\n").data ++ ct.2
      ++ topicsBlock
      ++ ("\n**Writing Style Analysis**:\n").data ++ complexityLine ++ toneLine
      ++ ("\n**Analysis Capabilities**:\n• **Summarization**: Extract key points and create concise summaries\n• **Question Answering**: Answer specific questions about the content\n• **Topic Extraction**: Identify main themes and subjects\n• **Style Analysis**: Examine writing patterns and linguistic features\n• **Content Enhancement**: Suggest improvements or modifications\n\n**Ready for Processing**: This text document contains substantial, well-structured content perfect for comprehensive analysis, summarization, and intelligent discussion.").data

/-! ## Attachment analyzer: PDF, code, generic -/

/-- `analyzePDFContent` (lines 535–635). -/
def analyzePDFContent (a : Attachment) (contentHash : Str) : Str :=
  let estimatedPages := (a.size + 49999) / 50000
  let filename := lowerStr a.name
  let dt :=
    if containsSub filename "report".data || containsSub filename "analysis".data then
      ("Analytical Report".data,
       ("**Report Structure Analysis**:\n• Executive summary and key findings\n• Data analysis and statistical information\n• Charts, graphs, and visual data representations\n• Conclusions and recommendations\n• Appendices with supporting documentation\n\n**Content Insights**: This report contains structured analytical content with quantitative and qualitative data, making it ideal for comprehensive analysis and insight extraction.").data)
    else if containsSub filename "manual".data || containsSub filename "guide".data
        || containsSub filename "instruction".data then
      ("Instructional Manual".data,
       ("**Manual Structure**:\n• Step-by-step procedures and instructions\n• Safety guidelines and best practices\n• Troubleshooting sections and FAQs\n• Technical specifications and requirements\n• Index and reference materials\n\n**Utility**: Perfect for extracting procedures, creating summaries of processes, and answering specific how-to questions.").data)
    else if containsSub filename "research".data || containsSub filename "study".data
        || containsSub filename "paper".data then
      ("Research Publication".data,
       ("**Research Document Features**:\n• Abstract and research objectives\n• Literature review and background\n• Methodology and experimental design\n• Results, data analysis, and findings\n• Discussion and implications\n• References and citations\n\n**Academic Value**: Excellent for research analysis, methodology review, and academic discussion.").data)
    else if containsSub filename "contract".data || containsSub filename "agreement".data
        || containsSub filename "legal".data then
      ("Legal Document".data,
       ("**Legal Document Structure**:\n• Terms and conditions with legal language\n• Parties involved and their obligations\n• Rights, responsibilities, and limitations\n• Compliance requirements and regulations\n• Signatures and official documentation\n\n**Analysis Focus**: Ideal for extracting key terms, obligations, and important clauses for review and understanding.").data)
    else if containsSub filename "presentation".data || containsSub filename "slide".data then
      ("Presentation Document".data,
       ("**Presentation Content**:\n• Slide layouts with titles and bullet points\n• Visual elements including charts and images\n• Key messages and talking points\n• Structured information flow\n• Summary and conclusion slides\n\n**Presentation Analysis**: Great for extracting key points, creating summaries, and understanding the main message flow.").data)
    else
      ("General Document".data,
       ("**General Document Content**:\n").data
       ++ (if 50 < estimatedPages then
             ("• **Comprehensive Content**: Large document with extensive information\n• **Multiple Sections**: Likely contains various topics and chapters\n• **Detailed Information**: Rich content suitable for thorough analysis\n").data
           else if 10 < estimatedPages then
             ("• **Substantial Content**: Medium-length document with focused information\n• **Organized Structure**: Well-structured content with clear sections\n• **Targeted Information**: Specific topic coverage with detailed insights\n").data
           else
             ("• **Concise Content**: Brief document with essential information\n• **Focused Topic**: Concentrated information on specific subjects\n• **Quick Reference**: Ideal for rapid analysis and key point extraction\n").data)
       ++ ("\n**Analysis Potential**: This document can be processed for content extraction, summarization, and detailed discussion based on your specific interests and questions.").data)
  ("📋 **PDF Document Analysis**\n\n**Document Properties**:\n• **Estimated Pages**: ").data
    ++ natStr estimatedPages ++ (" pages\n• **File Size**: ").data
    ++ formatFileSize a.size ++ ("\n• **Document ID**: ").data
    ++ contentHash.take 8 ++ ("\n\n**Document Type**: ").data ++ dt.1
    ++ ("\n\n").data ++ dt.2
    ++ ("\n\n**Processing Capabilities**:\n• **Text Extraction**: Extract and analyze all textual content\n• **Structure Analysis**: Identify sections, headings, and organization\n• **Content Summarization**: Create comprehensive summaries\n• **Question Answering**: Answer specific questions about the content\n• **Topic Identification**: Extract main themes and subjects\n• **Data Extraction**: Identify key facts, figures, and information\n\n**Ready for Analysis**: This PDF document contains valuable information that can be thoroughly analyzed, summarized, and discussed based on your specific needs and questions.").data

/-- `detectLanguageFromContent` (lines 701–710). -/
def detectLanguageFromContent (content : Str) : Str :=
  if containsSub content "def ".data && containsSub content "import ".data then
    "Python".data
  else if containsSub content "function".data && containsSub content "const ".data then
    "JavaScript".data
  else if containsSub content "public class".data && containsSub content "System.out".data then
    "Java".data
  else if containsSub content "interface ".data && containsSub content ": ".data then
    "TypeScript".data
  else if containsSub content "#include".data && containsSub content "int main".data then
    "C++".data
  else if containsSub content "func ".data && containsSub content "package ".data then
    "Go".data
  else if containsSub content "fn ".data && containsSub content "let ".data then
    "Rust".data
  else "Unknown".data

/-- The fixed extension → language table (lines 650–666). -/
def languageMap : List (Str × Str) :=
  [("js".data, "JavaScript".data), ("jsx".data, "JavaScript (React)".data),
   ("ts".data, "TypeScript".data), ("tsx".data, "TypeScript (React)".data),
   ("py".data, "Python".data), ("java".data, "Java".data),
   ("cpp".data, "C++".data), ("c".data, "C".data), ("cs".data, "C#".data),
   ("php".data, "PHP".data), ("rb".data, "Ruby".data), ("go".data, "Go".data),
   ("rs".data, "Rust".data), ("swift".data, "Swift".data),
   ("kt".data, "Kotlin".data)]

/-- `countCodeElements` (lines 828–835): each pattern counted by its own
global regex, then summed. -/
def countCodeElements (content : Str) (patterns : List Str) : Nat :=
  (patterns.map (fun p => countOcc p content)).sum

/-- `estimateComplexity` (lines 837–849): word-boundary-delimited counts
of the control-flow keywords, summed. -/
def estimateComplexity (content : Str) : Str :=
  let complexityIndicators :=
    ["if".data, "else".data, "for".data, "while".data, "switch".data,
     "case".data, "try".data, "catch".data]
  let complexity := (complexityIndicators.map (fun k => countWordOcc k content)).sum
  if complexity < 5 then ("Low - Simple linear logic").data
  else if complexity < 15 then ("Medium - Moderate branching and loops").data
  else ("High - Complex control flow and logic").data

/-- `analyzeCodeStructure` (lines 712–737). -/
def analyzeCodeStructure (content : Str) : Str :=
  let functions := countCodeElements content
    ["function".data, "def ".data, "func ".data, "fn ".data]
  let classes := countCodeElements content
    ["class ".data, "interface ".data, "struct ".data]
  let imports := countCodeElements content
    ["import ".data, "require".data, "#include".data, "using ".data, "from ".data]
  let variableCount := countCodeElements content
    ["let ".data, "const ".data, "var ".data, "int ".data, "String ".data, "double ".data]
  let hasComments := containsSub content "//".data || containsSub content "#".data
    || containsSub content "/*".data
  let hasDocstrings := containsSub content "\"\"\"".data
    || containsSub content "\x27\x27\x27".data || containsSub content "/**".data
  let hasConstants := hasUpperRun3 content
  ("**Code Structure Analysis**:\n• **Functions/Methods**: ").data
    ++ natStr functions ++ (" function definitions\n• **Classes/Interfaces**: ").data
    ++ natStr classes ++ (" class or interface definitions\n• **Dependencies**: ").data
    ++ natStr imports ++ (" import/include statements\n• **Variables**: ").data
    ++ natStr variableCount ++ (" variable declarations\n\n**Code Organization**:\n• **Comments**: ").data
    ++ (if hasComments then ("Well-commented code").data else ("Minimal comments").data)
    ++ ("\n• **Documentation**: ").data
    ++ (if hasDocstrings then ("Includes documentation strings").data
        else ("Basic documentation").data)
    ++ ("\n• **Constants**: ").data
    ++ (if hasConstants then ("Uses named constants").data else ("Direct values used").data)
    ++ ("\n\n").data

/-- `analyzeCodeQuality` (lines 739–771); the floating-point average
line length is modelled by exact rational rounding. -/
def analyzeCodeQuality (content : Str) (language : Str) : Str :=
  let lines := content.splitOn '\n'
  let totalLen := (lines.map (fun line => line.length)).sum
  let longLines := (lines.filter (fun line => decide (100 < line.length))).length
  let emptyLines := (lines.filter (fun line => decide ((jsTrim line).length = 0))).length
  let bestPractices :=
    (if containsSub content "try".data && containsSub content "catch".data then
      [("Error handling implemented").data] else [])
    ++ (if language = "JavaScript".data && containsSub content "const ".data then
      [("Uses const for immutable variables").data] else [])
    ++ (if containsSub content "async".data && containsSub content "await".data then
      [("Modern async/await patterns").data] else [])
  ("**Code Quality Assessment**:\n• **Line Length**: Average ").data
    ++ jsRoundDivStr totalLen lines.length ++ (" characters per line\n").data
    ++ (if 0 < longLines then
          ("• **Long Lines**: ").data ++ natStr longLines
            ++ (" lines exceed 100 characters\n").data
        else [])
    ++ ("• **Whitespace**: ").data ++ natStr emptyLines
    ++ (" empty lines for readability\n").data
    ++ (if bestPractices.length ≠ 0 then
          ("• **Best Practices**: ").data
            ++ List.intercalate ", ".data bestPractices ++ ("\n").data
        else [])
    ++ ("\n").data

/-- `analyzeCodeFunctionality` (lines 773–826). -/
def analyzeCodeFunctionality (content : Str) : Str :=
  let functionalities :=
    (if containsSub content "fetch".data || containsSub content "axios".data
        || containsSub content "requests".data then
      [("API communication and data fetching").data] else [])
    ++ (if containsSub content "useState".data || containsSub content "useEffect".data then
      [("React state management and lifecycle").data] else [])
    ++ (if containsSub content "express".data || containsSub content "app.get".data
        || containsSub content "app.post".data then
      [("Web server and API endpoints").data] else [])
    ++ (if containsSub content "database".data || containsSub content "sql".data
        || containsSub content "query".data then
      [("Database operations and data management").data] else [])
    ++ (if containsSub content "test".data || containsSub content "expect".data
        || containsSub content "assert".data then
      [("Testing and quality assurance").data] else [])
    ++ (if containsSub content "class".data && containsSub content "constructor".data then
      [("Object-oriented programming patterns").data] else [])
  let patterns :=
    (if containsSub content "module.exports".data || containsSub content "export ".data then
      [("Modular architecture").data] else [])
    ++ (if containsSub content "Promise".data || containsSub content "async".data then
      [("Asynchronous programming").data] else [])
    ++ (if containsSub content "map".data || containsSub content "filter".data
        || containsSub content "reduce".data then
      [("Functional programming").data] else [])
  ("**Functionality Analysis**:\n").data
    ++ (if functionalities.length ≠ 0 then
          ("• **Primary Functions**: ").data
            ++ List.intercalate ", ".data functionalities ++ ("\n").data
        else
          ("• **Primary Functions**: General programming logic and data processing\n").data)
    ++ ("• **Complexity Level**: ").data ++ estimateComplexity content ++ ("\n").data
    ++ (if patterns.length ≠ 0 then
          ("• **Programming Patterns**: ").data
            ++ List.intercalate ", ".data patterns ++ ("\n").data
        else [])
    ++ ("\n").data

/-- The empty/minimal-content notice of `analyzeCodeContent` (line 640). -/
def codeEmptyNotice (name : Str) : Str :=
  ("💻 **Code File**: ").data ++ name
    ++ (" appears to be empty or contains minimal code. Please ensure the file has readable code content for analysis.").data

/-- `analyzeCodeContent` (lines 637–699). -/
def analyzeCodeContent (a : Attachment) : Str :=
  let content := a.content.getD []
  if content.length < 10 then codeEmptyNotice a.name
  else
    let extension := lowerStr (lastExt a.name)
    let lines := content.splitOn '\n'
    let codeLines := lines.filter (fun line =>
      decide (0 < (jsTrim line).length)
        && !(("//".data).isPrefixOf (jsTrim line))
        && !(("#".data).isPrefixOf (jsTrim line))
        && !(("/*".data).isPrefixOf (jsTrim line)))
    let detectedLanguage :=
      match languageMap.find? (fun e => e.1 = extension) with
      | some e => e.2
      | none => detectLanguageFromContent content
    ("💻 **Code Analysis**\n\n**Code Properties**:\n• **Language**: ").data
      ++ detectedLanguage ++ ("\n• **Total Lines**: ").data ++ natStr lines.length
      ++ ("\n• **Code Lines**: ").data ++ natStr codeLines.length
      ++ (" (excluding comments and empty lines)\n• **File Size**: ").data
      ++ formatFileSize a.size ++ ("\n\n").data
      ++ analyzeCodeStructure content
      ++ analyzeCodeQuality content detectedLanguage
      ++ analyzeCodeFunctionality content
      ++ ("\n**Code Analysis Capabilities**:\n• **Syntax Review**: Check for syntax errors and best practices\n• **Performance Analysis**: Identify optimization opportunities\n• **Security Review**: Detect potential security vulnerabilities\n• **Documentation**: Generate code documentation and comments\n• **Refactoring Suggestions**: Recommend code improvements\n• **Bug Detection**: Identify potential issues and fixes\n\n**Ready for Development**: This code is well-structured and ready for comprehensive analysis, review, and enhancement based on your development needs.").data

/-- `analyzeGenericFileContent` (lines 851–919). -/
def analyzeGenericFileContent (a : Attachment) (contentHash : Str) : Str :=
  let extension := lowerStr (lastExt a.name)
  let fileTypeAnalysis :=
    if extension = "docx".data ∨ extension = "doc".data then
      ("**Microsoft Word Document**:\n• Rich text formatting with styles and layouts\n• Potential tables, images, and embedded objects\n• Professional document structure\n• Suitable for comprehensive text extraction and analysis\n").data
    else if extension = "pptx".data ∨ extension = "ppt".data then
      ("**PowerPoint Presentation**:\n• Slide-based content with visual layouts\n• Text, images, charts, and multimedia elements\n• Structured presentation flow\n• Key points and visual storytelling\n").data
    else if extension = "xlsx".data ∨ extension = "xls".data then
      ("**Excel Spreadsheet**:\n• Tabular data with rows and columns\n• Formulas, calculations, and data analysis\n• Charts and data visualizations\n• Structured numerical and categorical data\n").data
    else if extension = "csv".data then
      ("**CSV Data File**:\n• Comma-separated values format\n• Structured tabular data\n• Database-compatible format\n• Ideal for data analysis and processing\n").data
    else
      ("**Generic File Content**:\n• Binary or specialized format\n• May contain structured data or media\n• Requires specific processing based on format\n• Content analysis depends on file type capabilities\n").data
  ("📁 **File Analysis**\n\n**File Properties**:\n• **Name**: ").data ++ a.name
    ++ ("\n• **Type**: ").data ++ a.type.upper
    ++ ("\n• **Size**: ").data ++ formatFileSize a.size
    ++ ("\n• **Content ID**: ").data ++ contentHash.take 8 ++ ("\n\n").data
    ++ fileTypeAnalysis
    ++ ("\n**Processing Capabilities**:\n• **Content Extraction**: Extract readable content where possible\n• **Metadata Analysis**: Examine file properties and structure\n• **Format-Specific Processing**: Handle according to file type\n• **Data Interpretation**: Analyze based on content structure\n\n**Analysis Readiness**: This file has been successfully uploaded and is ready for processing based on its specific format and your analysis requirements.").data

/-- `analyzeAttachmentContent` (lines 115–134); the cosmetic 500 ms
delay is not part of the functional model, and `Date.now()` is the
explicit `now`. -/
def analyzeAttachmentContent (a : Attachment) (now : Nat) : Str :=
  let contentHash := generateContentHash a now
  match a.type with
  | .image => analyzeImageContent a contentHash
  | .text => analyzeTextContent a
  | .pdf => analyzePDFContent a contentHash
  | .code => analyzeCodeContent a
  | _ => analyzeGenericFileContent a contentHash

/-- `processAttachments` (lines 102–113). -/
def processAttachments (content : Str) (attachments : List Attachment)
    (now : Nat) : Str :=
  if attachments.isEmpty then content
  else attachments.foldl (fun acc a =>
    acc ++ ("\n\n**File Analysis: \"").data ++ a.name ++ ("\"**\n").data
      ++ analyzeAttachmentContent a now) content

/-! ## Response composer -/

/-- `generateFileSpecificAnswer` (lines 1027–1043). -/
def generateFileSpecificAnswer (question : Str) (a : Attachment) : Str :=
  let questionLower := lowerStr question
  if containsSub questionLower "what".data && containsSub questionLower "about".data then
    ("This ").data ++ a.type.str
      ++ (" file contains detailed information that directly addresses your question. The content provides comprehensive insights into the topics you\x27re asking about, with specific details and context that can help answer your inquiry thoroughly.").data
  else if containsSub questionLower "how".data then
    ("The file explains the processes and methodologies related to your question. It contains step-by-step information and detailed explanations that can guide you through the \"how\" aspects of your inquiry.").data
  else if containsSub questionLower "why".data then
    ("The document provides reasoning and explanations that address the \"why\" behind your question. It includes background information, rationale, and context that helps explain the underlying principles.").data
  else
    ("Based on the file content, I can provide detailed answers to your specific question. The document contains relevant information that directly relates to what you\x27re asking about.").data

/-- `generateFileInsights` (lines 1045–1062). -/
def generateFileInsights (a : Attachment) : Str :=
  match a.type with
  | .image =>
    ("The image provides rich visual information that I can analyze and discuss. Whether it\x27s charts, diagrams, screenshots, or other visual content, I can help you understand and extract insights from what\x27s shown.").data
  | .text =>
    ("This text document contains valuable written content that I can summarize, analyze for key themes, answer questions about, or help you process in various ways based on your needs.").data
  | .pdf =>
    ("The PDF document contains structured information that I can help you navigate, summarize, and analyze. Whether you need specific information extracted or a comprehensive overview, I\x27m ready to assist.").data
  | .code =>
    ("This code file contains programming logic that I can review, explain, debug, or help optimize. I can analyze the functionality, suggest improvements, or help you understand how it works.").data
  | _ =>
    ("This file contains structured information that I can help you analyze and understand based on your specific needs and questions.").data

/-- `generateBriefFileInsight` (lines 1064–1067). -/
def generateBriefFileInsight (a : Attachment) : Str :=
  a.type.upper ++ (" file (").data ++ formatFileSize a.size
    ++ (") - Ready for detailed analysis and discussion").data

/-- `generateNextStepsSuggestions` (lines 1069–1099). -/
def generateNextStepsSuggestions (content : Str) (attachments : List Attachment) : Str :=
  let hasText := attachments.any (fun a => a.type = .text ∨ a.type = .pdf)
  let hasCode := attachments.any (fun a => a.type = .code)
  let hasImage := attachments.any (fun a => a.type = .image)
  ("\n**What would you like to explore next?**\n").data
    ++ (if hasText then
          ("• **Summarize** the key points and main themes\n• **Ask specific questions** about the content\n• **Extract information** on particular topics\n").data
        else [])
    ++ (if hasCode then
          ("• **Code review** and optimization suggestions\n• **Explain functionality** and how it works\n• **Debug issues** or improve performance\n").data
        else [])
    ++ (if hasImage then
          ("• **Describe visual elements** and content\n• **Analyze charts or diagrams** for insights\n• **Extract text** or data from images\n").data
        else [])
    ++ ("• **Compare and contrast** information across files\n• **Generate reports** or comprehensive analysis\n\nJust let me know what specific aspect interests you most!").data

/-- `generateAttachmentFocusedResponse` (lines 994–1025). -/
def generateAttachmentFocusedResponse (content : Str)
    (attachments : List Attachment) (messageType : String) : Str :=
  let fileTypes := dedupFirst (attachments.map (fun a => a.type))
  let fileCount := attachments.length
  let response :=
    match attachments with
    | [a] =>
      ("Perfect! I\x27ve analyzed your ").data ++ a.type.str ++ (" file \"").data
        ++ a.name ++ ("\" and extracted comprehensive insights. ").data
        ++ (if messageType = "question" then
              ("Based on your question and the file content, here\x27s what I found:\n\n").data
                ++ generateFileSpecificAnswer content a
            else
              ("Here\x27s what I discovered:\n\n").data ++ generateFileInsights a)
    | _ =>
      ("Excellent! I\x27ve analyzed all ").data ++ natStr fileCount
        ++ (" files you\x27ve shared (").data
        ++ List.intercalate ", ".data (fileTypes.map (fun t => t.str))
        ++ ("). Each file provides unique insights that I can help you explore:\n\n").data
        ++ attachments.enum.foldl (fun acc it =>
            acc ++ ("**").data ++ natStr (it.1 + 1) ++ (". ").data ++ it.2.name
              ++ ("**\n").data ++ generateBriefFileInsight it.2 ++ ("\n\n").data) []
  response ++ generateNextStepsSuggestions content attachments

/-- The four fixed greeting openers (lines 1103–1108). -/
def greetingPool : List Str :=
  [("Hello! I\x27m IntelliNLP, your intelligent text processing assistant.").data,
   ("Hi there! Great to meet you. I\x27m here to help with all your text analysis and processing needs.").data,
   ("Good to see you! I\x27m IntelliNLP, ready to assist with intelligent text processing and analysis.").data,
   ("Hello! I\x27m excited to help you with text analysis, summarization, and intelligent processing.").data]

/-- `generateGreetingResponse` (lines 1102–1125); the `Math.random()`
pick is the explicit `rand`. -/
def generateGreetingResponse (rand : Nat) (content context : Str) : Str :=
  greetingPool.getD (rand % 4) []
    ++ (if 0 < context.length then
          (" I see we\x27ve been having an interesting conversation. ").data
        else [])
    ++ (" What would you like to work on today? I can help with:\n\n• **Text Analysis & Summarization** - Extract key insights from any document\n• **Question Answering** - Get detailed answers based on your content\n• **Code Analysis** - Review, debug, and improve your code\n• **Document Processing** - Analyze PDFs, images, and various file formats\n• **Intelligent Conversation** - Natural discussion about any topic\n\nFeel free to upload files or ask me anything!").data

/-- `generateSpecificAnswer` (lines 1348–1351). -/
def generateSpecificAnswer (content topic : Str) : Str :=
  ("Based on your question about ").data ++ topic
    ++ (", here\x27s a comprehensive explanation that addresses your specific inquiry. The key aspects to understand are the fundamental principles, practical applications, and how this relates to your particular context. This information should provide you with a clear understanding and actionable insights.").data

/-- `generateQuestionResponse` (lines 1127–1175). -/
def generateQuestionResponse (ctx : ConversationContext)
    (content context : Str) : Str :=
  let questionWord := extractQuestionWord content
  let topic := extractMainTopic content
  let opening :=
    if questionWord = "what".data then
      ("Great question about ").data ++ topic
        ++ ("! Let me explain this clearly for you.\n\n").data
    else if questionWord = "how".data then
      ("I\x27d be happy to walk you through ").data ++ topic
        ++ (". Here\x27s a comprehensive approach:\n\n").data
    else if questionWord = "why".data then
      ("That\x27s an insightful question about ").data ++ topic
        ++ (". The reasoning involves several key factors:\n\n").data
    else if questionWord = "when".data then
      ("Regarding the timing of ").data ++ topic
        ++ (", here\x27s what you need to know:\n\n").data
    else if questionWord = "where".data then
      ("For the location or context of ").data ++ topic
        ++ (", let me provide you with detailed information:\n\n").data
    else if questionWord = "can you".data ∨ questionWord = "could you".data
        ∨ questionWord = "will you".data ∨ questionWord = "would you".data then
      ("Absolutely! I\x27d be delighted to help you with ").data ++ topic
        ++ (". Here\x27s what I can do:\n\n").data
    else if questionWord = "are you".data ∨ questionWord = "do you".data then
      ("That\x27s a thoughtful question about my capabilities regarding ").data
        ++ topic ++ (". Let me clarify:\n\n").data
    else
      ("Excellent question about ").data ++ topic
        ++ ("! Here\x27s a detailed response:\n\n").data
  opening ++ generateSpecificAnswer content topic
    ++ (if 0 < context.length ∧ 1 < ctx.topics.length then
          ("\n\nThis connects to our earlier discussion about ").data
            ++ ctx.topics.getD (ctx.topics.length - 2) []
            ++ (", providing a more complete picture of the topic.").data
        else [])
    ++ ("\n\nIs there anything specific about this you\x27d like me to elaborate on?").data

/-- `generateAnalysisAction` (lines 1353–1355). -/
def generateAnalysisAction (content topic : Str) : Str :=
  ("**📋 Analysis Plan for ").data ++ topic
    ++ (":**\n• Comprehensive data examination\n• Pattern identification and insights\n• Detailed findings report\n• Actionable recommendations\n\nI\x27ll provide a thorough analysis that covers all important aspects.").data

/-- `generateCreationAction` (lines 1357–1359). -/
def generateCreationAction (content topic : Str) : Str :=
  ("**🛠️ Creation Process for ").data ++ topic
    ++ (":**\n• Requirements analysis\n• Design and structure planning\n• Implementation with best practices\n• Quality review and refinement\n\nI\x27ll create exactly what you need with attention to detail.").data

/-- `generateExplanationAction` (lines 1361–1363). -/
def generateExplanationAction (content topic : Str) : Str :=
  ("**📚 Explanation Strategy for ").data ++ topic
    ++ (":**\n• Clear, step-by-step breakdown\n• Real-world examples and context\n• Visual aids where helpful\n• Q&A to ensure understanding\n\nI\x27ll make sure everything is crystal clear.").data

/-- `generateSummarizationAction` (lines 1365–1367). -/
def generateSummarizationAction (content topic : Str) : Str :=
  ("**📝 Summarization Approach for ").data ++ topic
    ++ (":**\n• Key points extraction\n• Logical structure organization\n• Essential insights highlighting\n• Concise yet comprehensive overview\n\nYou\x27ll get all the important information in a digestible format.").data

/-- `generateHelpAction` (lines 1369–1371). -/
def generateHelpAction (content topic : Str) : Str :=
  ("**🤝 Assistance Plan for ").data ++ topic
    ++ (":**\n• Understanding your specific needs\n• Tailored solution development\n• Step-by-step guidance\n• Ongoing support and clarification\n\nI\x27m here to help you succeed with this.").data

/-- `generateGeneralAction` (lines 1373–1375). -/
def generateGeneralAction (content topic : Str) : Str :=
  ("**⚡ Action Plan for ").data ++ topic
    ++ (":**\n• Thorough assessment of requirements\n• Strategic approach development\n• Implementation with best practices\n• Results review and optimization\n\nI\x27ll handle this efficiently and effectively.").data

/-- The action-word switch of `generateRequestResponse`
(lines 1190–1210). -/
def requestActionSwitch (actionWord : Str) (content topic : Str) : Str :=
  if actionWord = "analyze".data then generateAnalysisAction content topic
  else if actionWord = "create".data ∨ actionWord = "make".data
      ∨ actionWord = "generate".data then generateCreationAction content topic
  else if actionWord = "explain".data then generateExplanationAction content topic
  else if actionWord = "summarize".data then
    generateSummarizationAction content topic
  else if actionWord = "help".data then generateHelpAction content topic
  else generateGeneralAction content topic

/-- `generateRequestResponse` (lines 1177–1215). -/
def generateRequestResponse (ctx : ConversationContext)
    (content context : Str) : Str :=
  let topic := extractMainTopic content
  let actionWord := extractActionWord content
  ("I\x27d be happy to ").data ++ actionWord ++ (" ").data ++ topic
    ++ (" for you! ").data
    ++ (if containsSub context "similar".data ∨ 0 < ctx.previousQuestions.length then
          ("Building on our previous work together, ").data
        else [])
    ++ ("Here\x27s my approach:\n\n").data
    ++ requestActionSwitch actionWord content topic
    ++ ("\n\nI\x27m ready to get started whenever you are. Just let me know if you need any adjustments to this approach!").data

/-- `generateAnalyticalFindings` (lines 1377–1379). -/
def generateAnalyticalFindings (content topic : Str) : Str :=
  ("• **Structure & Organization**: Well-defined elements with clear relationships\n• **Key Patterns**: Consistent themes and logical flow throughout\n• **Critical Insights**: Important discoveries that impact understanding\n• **Quality Assessment**: High-value content suitable for detailed analysis").data

/-- `generateInsights` (lines 1381–1383). -/
def generateInsights (content topic : Str) : Str :=
  ("• **Strategic Value**: This analysis provides actionable intelligence\n• **Practical Applications**: Direct relevance to real-world scenarios\n• **Next Steps**: Clear path forward based on findings\n• **Optimization Opportunities**: Areas for improvement and enhancement").data

/-- `generateAnalysisResponse` (lines 1217–1242). -/
def generateAnalysisResponse (ctx : ConversationContext)
    (content context : Str) : Str :=
  let topic := extractMainTopic content
  ("Excellent! I\x27ll provide a comprehensive analysis of ").data ++ topic
    ++ (". ").data
    ++ (if 0 < ctx.attachmentHistory.length then
          ("Based on the files you\x27ve shared, I can offer detailed insights. ").data
        else [])
    ++ ("Here\x27s my analytical approach:\n\n**🔍 Analysis Framework:**\n• **Primary Assessment** - Core elements and structure\n• **Detailed Examination** - Key patterns and relationships\n• **Contextual Insights** - Broader implications and connections\n• **Actionable Recommendations** - Practical next steps\n\n**📊 Key Findings:**\n").data
    ++ generateAnalyticalFindings content topic
    ++ ("\n\n**💡 Insights & Recommendations:**\n").data
    ++ generateInsights content topic
    ++ ("\n\nThis analysis provides a solid foundation for understanding ").data
    ++ topic ++ (". Would you like me to dive deeper into any specific aspect?").data

/-- `generateThoughtfulReflection` (lines 1385–1387). -/
def generateThoughtfulReflection (content topic : Str) : Str :=
  ("Your observation about ").data ++ topic
    ++ (" raises some important considerations. There are multiple perspectives to consider here, and your viewpoint adds valuable insight to the discussion. The complexity of this topic means there are often nuanced aspects that deserve careful thought and analysis.").data

/-- `generateOpinionResponse` (lines 1244–1259). -/
def generateOpinionResponse (content context : Str) : Str :=
  let topic := extractMainTopic content
  ("I appreciate you sharing your perspective on ").data ++ topic ++ ("! ").data
    ++ (if containsSub (lowerStr content) "i think".data
          ∨ containsSub (lowerStr content) "i believe".data then
          ("Your viewpoint is really interesting. ").data
        else [])
    ++ ("Here are my thoughts on this:\n\n").data
    ++ generateThoughtfulReflection content topic
    ++ ("\n\nWhat\x27s your take on this perspective? I\x27d love to hear more of your thoughts!").data

/-- `generateEngagingDiscussion` (lines 1389–1391). -/
def generateEngagingDiscussion (content topic : Str) : Str :=
  ("There are so many interesting angles to explore with ").data ++ topic
    ++ (". The way you\x27ve approached this shows real insight into the subject matter. I think there\x27s a lot we could unpack here, from the fundamental concepts to the practical implications and everything in between.").data

/-- The four conversation starters of `generateConversationalResponse`
(lines 1264–1269), as functions of the topic. -/
def conversationStarters (topic : Str) : List Str :=
  [("That\x27s really interesting about ").data ++ topic ++ ("! ").data,
   ("I find ").data ++ topic ++ (" fascinating. ").data,
   ("You\x27ve brought up a great point about ").data ++ topic ++ (". ").data,
   topic ++ (" is definitely worth discussing. ").data]

/-- `generateConversationalResponse` (lines 1261–1283). -/
def generateConversationalResponse (ctx : ConversationContext) (rand : Nat)
    (content context : Str) : Str :=
  let topic := extractMainTopic content
  (conversationStarters topic).getD (rand % 4) []
    ++ generateEngagingDiscussion content topic
    ++ (if 1 < ctx.topics.length then
          (" This reminds me of our earlier discussion about ").data
            ++ ctx.topics.getD (ctx.topics.length - 2) [] ++ (".").data
        else [])
    ++ ("\n\nWhat aspects of ").data ++ topic ++ (" interest you most?").data

/-- The four fixed apologetic fallback replies (lines 1402–1407). -/
def errorResponses : List Str :=
  [("I apologize, but I encountered a technical issue while processing your message. Let me try a different approach to help you.").data,
   ("It seems there was a hiccup in my processing. Could you please rephrase your request so I can assist you better?").data,
   ("I\x27m experiencing some difficulty with that particular request. Let me know how else I can help you today.").data,
   ("There was an unexpected issue, but I\x27m still here to help! Please try rephrasing your question or request.").data]

/-- `generateErrorResponse` (lines 1401–1410); the `Math.random()` pick
is the explicit `rand`. -/
def generateErrorResponse (rand : Nat) : Str := errorResponses.getD (rand % 4) []

/-- `craftPersonalizedResponse` (lines 972–992): attachment-focused when
any attachment is present, otherwise the intent switch. -/
def craftPersonalizedResponse (ctx : ConversationContext) (rand : Nat)
    (content : Str) (messageType : String) (context : Str)
    (attachments : List Attachment) : Str :=
  if attachments.length ≠ 0 then
    generateAttachmentFocusedResponse content attachments messageType
  else if messageType = "greeting" then generateGreetingResponse rand content context
  else if messageType = "question" then generateQuestionResponse ctx content context
  else if messageType = "request" then generateRequestResponse ctx content context
  else if messageType = "analysis" then generateAnalysisResponse ctx content context
  else if messageType = "opinion" then generateOpinionResponse content context
  else generateConversationalResponse ctx rand content context

/-! ## Conversation engine (orchestrator) -/

/-- The full per-conversation state: history and context. -/
structure ProcState where
  history : List ChatMessage
  context : ConversationContext
deriving DecidableEq, Repr

/-- The state after construction (`initializeSystemContext`). -/
def initialState (now : Nat) : ProcState :=
  { history := [systemMessage now], context := initialContext }

/-- `clearHistory` (lines 1413–1423): empty the history, reset the
context to its defaults, push the system turn again. -/
def clearHistory (now : Nat) : ProcState := initialState now

/-- A modelled throw site inside the `try` of `processMessage`: spec
§7(b)'s unexpected internal failure is modelled as occurring at one of
the statement boundaries of the turn pipeline, all of which come after
the user turn was recorded (the record itself is a plain array push). -/
inductive FailPoint
  | atUpdateContext
  | atProcessAttachments
  | atGenerateResponse
deriving DecidableEq, Repr

/-- `generateIntelligentResponse` (lines 921–929); the intent label is
computed on the (possibly enhanced) content handed to it, and the
cosmetic 800 ms delay is not part of the functional model. -/
def generateIntelligentResponse (st : ProcState) (rand : Nat)
    (content : Str) (attachments : List Attachment) : Str :=
  let messageType := analyzeMessageType content
  let conversationContext := buildConversationContext st.history
  craftPersonalizedResponse st.context rand content messageType
    conversationContext attachments

/-- `processMessage` (lines 49–80): record the user turn, update the
context, enhance the content with the attachment analyses, compose the
reply, record the reply as an assistant turn.  A failure injected at
`fail` is caught at the orchestrator boundary (`catch`) and converted
into `generateErrorResponse`; in that case only the state changes made
before the throw site survive, and no assistant turn is recorded. -/
def processMessage (st : ProcState) (content : Str)
    (attachments : List Attachment) (now rand : Nat)
    (fail : Option FailPoint) : Str × ProcState :=
  let userMessage : ChatMessage :=
    { role := .user, content := content, attachments := attachments,
      timestamp := now }
  let st1 : ProcState := { st with history := st.history ++ [userMessage] }
  match fail with
  | some .atUpdateContext => (generateErrorResponse rand, st1)
  | some .atProcessAttachments =>
    (generateErrorResponse rand,
     { st1 with context := updateContext st1.context content attachments })
  | some .atGenerateResponse =>
    (generateErrorResponse rand,
     { st1 with context := updateContext st1.context content attachments })
  | none =>
    let st2 : ProcState :=
      { st1 with context := updateContext st1.context content attachments }
    let enhancedContent := processAttachments content attachments now
    let response := generateIntelligentResponse st2 rand enhancedContent attachments
    (response,
     { st2 with history := st2.history
        ++ [{ role := .assistant, content := response, timestamp := now }] })

/-- The states reachable through the public API: a freshly constructed
processor, any `processMessage` call (with any failure injection), and
`clearHistory`. -/
inductive Reachable : ProcState → Prop
  | init (now : Nat) : Reachable (initialState now)
  | step {st : ProcState} (content : Str) (attachments : List Attachment)
      (now rand : Nat) (fail : Option FailPoint) :
      Reachable st →
      Reachable (processMessage st content attachments now rand fail).2
  | clear (now : Nat) : Reachable (clearHistory now)

/-- Modelled from the spec sentence behind C7, which describes the
fingerprint as the first 8 hexadecimal characters of the 32-bit *masked*
fold rendered as hexadecimal (no absolute value of a signed reading). -/
def specMaskedFingerprint (a : Attachment) (now : Nat) : Str :=
  (hexStr (hashFold (hashSource a now))).take 8

/-! ## Lemmas about the deduplicating topic merge -/

theorem mem_dedupFirst {α : Type} [DecidableEq α] {x : α} {l : List α} :
    x ∈ dedupFirst l ↔ x ∈ l := by
  induction l with
  | nil => simp [dedupFirst]
  | cons a as ih =>
    simp only [dedupFirst, List.mem_cons, List.mem_filter, decide_eq_true_eq]
    constructor
    · rintro (rfl | ⟨hx, _⟩)
      · exact .inl rfl
      · exact .inr (ih.mp hx)
    · rintro (rfl | hx)
      · exact .inl rfl
      · by_cases hxa : x = a
        · exact .inl hxa
        · exact .inr ⟨ih.mpr hx, hxa⟩

theorem nodup_dedupFirst {α : Type} [DecidableEq α] (l : List α) :
    (dedupFirst l).Nodup := by
  induction l with
  | nil => simp [dedupFirst]
  | cons a as ih =>
    simp only [dedupFirst, List.nodup_cons]
    refine ⟨fun hmem => ?_, ih.filter _⟩
    simp only [List.mem_filter, decide_eq_true_eq] at hmem
    exact hmem.2 rfl

theorem dedupFirst_eq_self {α : Type} [DecidableEq α] {l : List α}
    (h : l.Nodup) : dedupFirst l = l := by
  induction l with
  | nil => rfl
  | cons a as ih =>
    rw [List.nodup_cons] at h
    simp only [dedupFirst, ih h.2, List.cons.injEq, true_and]
    exact List.filter_eq_self.mpr fun x hx => by
      simp only [decide_eq_true_eq]
      rintro rfl; exact h.1 hx

theorem dedupFirst_append_singleton {α : Type} [DecidableEq α]
    (l : List α) (t : α) :
    dedupFirst (l ++ [t]) = dedupFirst l ++ (if t ∈ l then [] else [t]) := by
  induction l with
  | nil => simp [dedupFirst]
  | cons a as ih =>
    have hstep : dedupFirst ((a :: as) ++ [t])
        = a :: (dedupFirst (as ++ [t])).filter (fun y => decide (y ≠ a)) := rfl
    have hstep2 : dedupFirst (a :: as)
        = a :: (dedupFirst as).filter (fun y => decide (y ≠ a)) := rfl
    rw [hstep, hstep2, ih, List.filter_append]
    by_cases htas : t ∈ as
    · simp [htas, List.mem_cons]
    · by_cases hta : t = a
      · subst hta
        simp [htas, List.mem_cons]
      · simp [htas, hta, List.mem_cons]

theorem dedupFirst_append_of_subset {α : Type} [DecidableEq α]
    {l ts : List α} (hsub : ∀ t ∈ ts, t ∈ l) :
    dedupFirst (l ++ ts) = dedupFirst l := by
  induction ts using List.reverseRecOn with
  | nil => simp
  | append_singleton ts t ih =>
    have h1 : ∀ x ∈ ts, x ∈ l := fun x hx => hsub x (by simp [hx])
    have h2 : t ∈ l := hsub t (by simp)
    rw [← List.append_assoc, dedupFirst_append_singleton, ih h1,
      if_pos (by simp [h2])]
    simp

theorem takeLast_length_le {α : Type} (n : Nat) (l : List α) :
    (takeLast n l).length ≤ n := by
  simp only [takeLast, List.length_drop]
  omega

theorem takeLast_eq_self {α : Type} {n : Nat} {l : List α}
    (h : l.length ≤ n) : takeLast n l = l := by
  simp only [takeLast]
  rw [Nat.sub_eq_zero_of_le h, List.drop_zero]

theorem takeLast_sublist {α : Type} (n : Nat) (l : List α) :
    (takeLast n l).Sublist l := List.drop_sublist _ _

theorem mergeTopics_length_le (old newTopics : List Str) :
    (mergeTopics old newTopics).length ≤ 10 :=
  takeLast_length_le _ _

theorem mergeTopics_nodup (old newTopics : List Str) :
    (mergeTopics old newTopics).Nodup :=
  (takeLast_sublist _ _).nodup (nodup_dedupFirst _)

/-- Merging only already-present topics leaves the topics untouched. -/
theorem mergeTopics_of_subset {old ts : List Str}
    (hsub : ∀ t ∈ ts, t ∈ old) (hnd : old.Nodup) (hlen : old.length ≤ 10) :
    mergeTopics old ts = old := by
  unfold mergeTopics
  rw [dedupFirst_append_of_subset hsub, dedupFirst_eq_self hnd,
    takeLast_eq_self hlen]

/-- The topics part of any `processMessage` outcome: either untouched
(failure before the context update) or one `mergeTopics` step. -/
theorem processMessage_topics (st : ProcState) (content : Str)
    (attachments : List Attachment) (now rand : Nat)
    (fail : Option FailPoint) :
    (processMessage st content attachments now rand fail).2.context.topics
        = st.context.topics ∨
    (processMessage st content attachments now rand fail).2.context.topics
        = mergeTopics st.context.topics (extractTopics content) := by
  rcases fail with _ | fp
  · exact .inr rfl
  · cases fp
    · exact .inl rfl
    · exact .inr rfl
    · exact .inr rfl

/-- Reachable states have deduplicated topics of length at most 10. -/
theorem reachable_topics_nodup_len {st : ProcState} (h : Reachable st) :
    st.context.topics.Nodup ∧ st.context.topics.length ≤ 10 := by
  induction h with
  | init now => exact ⟨List.nodup_nil, by simp [initialState, initialContext]⟩
  | step content attachments now rand fail hst ih =>
    rcases processMessage_topics _ content attachments now rand fail with he | he
    · rw [he]; exact ih
    · rw [he]; exact ⟨mergeTopics_nodup _ _, mergeTopics_length_le _ _⟩
  | clear now => exact ⟨List.nodup_nil, by simp [clearHistory, initialState, initialContext]⟩

/-- C2: after any sequence of `processMessage` calls the topics list has
at most 10 entries, and merging a batch of already-tracked topics — in
particular re-inserting one already-present topic — neither grows the
list nor moves any topic (the list is unchanged, so nothing moves to the
end). -/
theorem topics_bounded_and_duplicates_stable {st : ProcState}
    (h : Reachable st) :
    st.context.topics.length ≤ 10 ∧
    ∀ ts : List Str, (∀ t ∈ ts, t ∈ st.context.topics) →
      mergeTopics st.context.topics ts = st.context.topics := by
  obtain ⟨hnd, hlen⟩ := reachable_topics_nodup_len h
  exact ⟨hlen, fun ts hsub => mergeTopics_of_subset hsub hnd hlen⟩

/-- Witness for C2 at a concrete reachable state: after one turn the
topic `Alpha` is tracked, the bound holds and re-merging `Alpha` changes
nothing. -/
theorem topics_bounded_and_duplicates_stable_witness :
    ("Alpha".data ∈ (processMessage (initialState 0) "Alpha beta".data []
        0 0 none).2.context.topics) ∧
    ((processMessage (initialState 0) "Alpha beta".data []
        0 0 none).2.context.topics.length ≤ 10 ∧
      mergeTopics (processMessage (initialState 0) "Alpha beta".data []
          0 0 none).2.context.topics ["Alpha".data]
        = (processMessage (initialState 0) "Alpha beta".data []
          0 0 none).2.context.topics) := by
  have hr : Reachable (processMessage (initialState 0) "Alpha beta".data []
      0 0 none).2 :=
    Reachable.step _ _ _ _ _ (Reachable.init 0)
  have hmem : "Alpha".data ∈ (processMessage (initialState 0)
      "Alpha beta".data [] 0 0 none).2.context.topics := by decide
  have h := topics_bounded_and_duplicates_stable hr
  exact ⟨hmem, h.1, h.2 ["Alpha".data] (by simpa using hmem)⟩

/-! ## C3: `?` forces the `question` label unless a greeting wins -/

/-- `?` survives ASCII case folding, so it is still present after
`toLowerCase()`. -/
theorem lowerStr_contains_qmark {content : Str}
    (h : content.contains '?' = true) :
    (lowerStr content).contains '?' = true := by
  have hm : '?' ∈ content := by simpa using h
  have hml : '?' ∈ lowerStr content := List.mem_map.mpr ⟨'?', hm, by decide⟩
  simpa using hml

/-- C3: every utterance containing the character `?` is classified
`question`, except that the higher-precedence greeting rule (a
case-insensitive `hi`/`hello`/`hey`/`good morning`/`good afternoon`/
`good evening` prefix) yields `greeting`. -/
theorem question_mark_classification (content : Str)
    (h : content.contains '?' = true) :
    analyzeMessageType content =
      if startsWithAny greetingStarts (lowerStr content) then "greeting"
      else "question" := by
  have hq : '?' ∈ lowerStr content := by
    simpa using lowerStr_contains_qmark h
  unfold analyzeMessageType
  by_cases hg : startsWithAny greetingStarts (lowerStr content) = true
  · simp [hg]
  · simp only [Bool.not_eq_true] at hg
    simp [hg, hq]

/-- Witness for C3: a concrete `?` utterance classifies as `question`,
and a concrete utterance starting with the raw prefix `hi` (inside
`history`) classifies as `greeting` despite its `?`. -/
theorem question_mark_classification_witness :
    "what time?".data.contains '?' = true ∧
    analyzeMessageType "what time?".data
      = (if startsWithAny greetingStarts (lowerStr "what time?".data) then
          "greeting" else "question") ∧
    analyzeMessageType "what time?".data = "question" ∧
    analyzeMessageType "history?".data = "greeting" :=
  ⟨by decide, question_mark_classification _ (by decide), by decide, by decide⟩

/-! ## C10: raw-prefix interrogative matching feeds `previousQuestions` -/

/-- C10: an utterance with no `?` whose lowercased text merely begins
with the characters of an interrogative opener — also as a fragment of a
longer word, e.g. `island` matching the prefix `is` — satisfies the
question predicate, so the context update appends the full utterance to
`previousQuestions`. -/
theorem prefix_match_tracks_question (ctx : ConversationContext)
    (content : Str) (attachments : List Attachment)
    (h1 : content.contains '?' = false)
    (h2 : startsWithAny interrogativeStarts (lowerStr content) = true) :
    (updateContext ctx content attachments).previousQuestions
      = ctx.previousQuestions ++ [content] := by
  have hq : isQuestion content = true := by
    unfold isQuestion
    rw [h2]
    simp
  unfold updateContext
  simp [hq]

/-- Witness for C10: `island of hawaii` has no `?` and its first word is
not an interrogative, yet it is appended to `previousQuestions`. -/
theorem prefix_match_tracks_question_witness :
    ("island of hawaii".data.contains '?' = false) ∧
    (startsWithAny interrogativeStarts (lowerStr "island of hawaii".data) = true) ∧
    (updateContext initialContext "island of hawaii".data []).previousQuestions
      = initialContext.previousQuestions ++ ["island of hawaii".data] :=
  ⟨by decide, by decide,
   prefix_match_tracks_question initialContext _ [] (by decide) (by decide)⟩

/-! ## C9: minimal text content yields the notice, never a failure -/

/-- C9: for a text attachment whose textual content is missing, empty or
shorter than 10 characters, the analyzer (a total function — it cannot
throw) returns the empty-or-minimal-content notice instead of the metric
analysis. -/
theorem text_minimal_content_notice (a : Attachment)
    (h : (a.content.getD []).length < 10) :
    analyzeTextContent a = textEmptyNotice a.name ∧
    ("appears to be empty or contains minimal content".data
      <:+: analyzeTextContent a) := by
  have he : analyzeTextContent a = textEmptyNotice a.name := by
    unfold analyzeTextContent
    simp [h]
  refine ⟨he, ?_⟩
  rw [he]
  unfold textEmptyNotice
  have hlit : (" appears to be empty or contains minimal content. Please ensure the file has readable text content for analysis.").data
      = (" ").data ++ ("appears to be empty or contains minimal content").data
        ++ (". Please ensure the file has readable text content for analysis.").data := by
    decide
  rw [hlit]
  exact ⟨("📄 **Text File**: ").data ++ a.name ++ (" ").data,
    (". Please ensure the file has readable text content for analysis.").data,
    by simp [List.append_assoc]⟩

/-- Witness for C9 at a concrete empty text attachment. -/
theorem text_minimal_content_notice_witness :
    (((Attachment.mk [] "empty.txt".data .text 0 none none).content.getD []).length < 10) ∧
    (analyzeTextContent (Attachment.mk [] "empty.txt".data .text 0 none none)
      = textEmptyNotice "empty.txt".data) :=
  ⟨by decide, (text_minimal_content_notice _ (by decide)).1⟩

/-! ## C1: caught failures return a fallback reply -/

/-- Any random pick lands in the fixed pool of four fallback replies. -/
theorem generateErrorResponse_mem (rand : Nat) :
    generateErrorResponse rand ∈ errorResponses := by
  have h : rand % 4 < 4 := Nat.mod_lt _ (by norm_num)
  unfold generateErrorResponse
  set k := rand % 4 with hk
  interval_cases k <;> decide

/-- C1 counterexample: at a concrete turn whose processing fails, the
call returns one of the fallback replies, yet the resulting history
contains no assistant turn at all — the fallback reply is not recorded
as the assistant's turn, contrary to the claim. -/
theorem fallback_not_recorded_in_history :
    ((processMessage (initialState 0) "hello there".data [] 0 0
        (some .atGenerateResponse)).1 ∈ errorResponses) ∧
    (∀ m ∈ (processMessage (initialState 0) "hello there".data [] 0 0
        (some .atGenerateResponse)).2.history, m.role ≠ Role.assistant) := by
  decide

/-- C1 amended: for every state, turn and failure point, the call still
returns one of the four fallback replies, and the history afterwards is
exactly the previous history plus the user's turn — the user turn is
recorded, the fallback is not appended as an assistant turn. -/
theorem failure_returns_fallback (st : ProcState) (content : Str)
    (attachments : List Attachment) (now rand : Nat) (fp : FailPoint) :
    ((processMessage st content attachments now rand (some fp)).1
        ∈ errorResponses) ∧
    (processMessage st content attachments now rand (some fp)).2.history
      = st.history ++ [ChatMessage.mk Role.user content attachments now] := by
  cases fp <;> exact ⟨generateErrorResponse_mem rand, rfl⟩

/-! ## C6: the look-back is the last four non-system turns -/

/-- What one `processMessage` call appends to the history: the user
turn, and — when nothing fails — the assistant turn carrying the reply. -/
theorem processMessage_history_cases (st : ProcState) (content : Str)
    (attachments : List Attachment) (now rand : Nat)
    (fail : Option FailPoint) :
    (processMessage st content attachments now rand fail).2.history
      = st.history ++ [ChatMessage.mk .user content attachments now]
    ∨ (processMessage st content attachments now rand fail).2.history
      = st.history ++ [ChatMessage.mk .user content attachments now,
          ChatMessage.mk .assistant
            (processMessage st content attachments now rand fail).1 [] now] := by
  rcases fail with _ | fp
  · right
    simp [processMessage]
  · left
    cases fp <;> rfl

/-- Reachable histories consist of the initial system turn followed by
user/assistant turns only. -/
theorem reachable_history_shape {st : ProcState} (h : Reachable st) :
    ∃ sys rest, st.history = sys :: rest ∧ sys.role = Role.system ∧
      ∀ m ∈ rest, m.role ≠ Role.system := by
  induction h with
  | init now => exact ⟨systemMessage now, [], rfl, rfl, by simp⟩
  | clear now => exact ⟨systemMessage now, [], rfl, rfl, by simp⟩
  | @step s content attachments now rand fail hst ih =>
    obtain ⟨sys, rest, hh, hsys, hrest⟩ := ih
    rcases processMessage_history_cases s content attachments now rand fail
      with hc | hc
    · refine ⟨sys, rest ++ [ChatMessage.mk .user content attachments now],
        ?_, hsys, ?_⟩
      · rw [hc, hh]; simp
      · intro m hm
        rcases List.mem_append.mp hm with hm | hm
        · exact hrest m hm
        · simp only [List.mem_singleton] at hm
          subst hm
          show Role.user ≠ Role.system
          decide
    · refine ⟨sys, rest ++ [ChatMessage.mk .user content attachments now,
        ChatMessage.mk .assistant
          ((processMessage s content attachments now rand fail).1) [] now],
        ?_, hsys, ?_⟩
      · rw [hc, hh]; simp
      · intro m hm
        rcases List.mem_append.mp hm with hm | hm
        · exact hrest m hm
        · simp only [List.mem_cons, List.mem_singleton, List.not_mem_nil,
            or_false] at hm
          rcases hm with rfl | rfl
          · show Role.user ≠ Role.system
            decide
          · show Role.assistant ≠ Role.system
            decide

/-- Filtering out system turns commutes with taking the last `n` turns
when the only system turn sits at the head of the history. -/
theorem takeLast_filter_comm (n : Nat) (sys : ChatMessage)
    (rest : List ChatMessage) (hsys : sys.role = Role.system)
    (hrest : ∀ m ∈ rest, m.role ≠ Role.system) :
    (takeLast n (sys :: rest)).filter (fun m => decide (m.role ≠ Role.system))
      = takeLast n (List.filter (fun m => decide (m.role ≠ Role.system))
          (sys :: rest)) := by
  have hfil : List.filter (fun m => decide (m.role ≠ Role.system)) rest = rest :=
    List.filter_eq_self.mpr (fun m hm => by simpa using hrest m hm)
  have hfilcons : List.filter (fun m => decide (m.role ≠ Role.system))
      (sys :: rest) = rest := by
    rw [List.filter_cons_of_neg (by simp [hsys]), hfil]
  rw [hfilcons]
  by_cases hlen : rest.length + 1 ≤ n
  · rw [takeLast_eq_self (l := sys :: rest) (by simpa using hlen),
      takeLast_eq_self (by omega)]
    exact hfilcons
  · have hdrop : takeLast n (sys :: rest) = takeLast n rest := by
      unfold takeLast
      have hs : (sys :: rest).length - n = (rest.length - n) + 1 := by
        simp only [List.length_cons]
        omega
      rw [hs, List.drop_succ_cons]
    rw [hdrop]
    exact List.filter_eq_self.mpr (fun m hm => by
      simpa using hrest m ((takeLast_sublist n rest).subset hm))

/-- C6: for every reachable state, the composer's contextual look-back
is built from exactly the last four non-system turns of the history
(the source slices the last four history entries first and then drops
system turns; with the single system turn at the head these coincide). -/
theorem lookback_is_last_four_nonsystem {st : ProcState} (h : Reachable st) :
    buildConversationContext st.history
      = List.intercalate "\n".data
          ((takeLast 4 (st.history.filter
              (fun m => decide (m.role ≠ Role.system)))).map lookbackLine) := by
  obtain ⟨sys, rest, hh, hsys, hrest⟩ := reachable_history_shape h
  unfold buildConversationContext
  rw [hh, takeLast_filter_comm 4 sys rest hsys hrest]

/-- Witness for C6 at a concrete reachable state with five history
entries (system, then two user/assistant pairs). -/
theorem lookback_is_last_four_nonsystem_witness :
    ((processMessage (processMessage (initialState 0) "Alpha".data [] 0 0
        none).2 "Beta".data [] 0 0 none).2.history.length = 5) ∧
    (buildConversationContext (processMessage (processMessage
        (initialState 0) "Alpha".data [] 0 0 none).2 "Beta".data [] 0 0
        none).2.history
      = List.intercalate "\n".data
          ((takeLast 4 ((processMessage (processMessage (initialState 0)
              "Alpha".data [] 0 0 none).2 "Beta".data [] 0 0 none).2.history.filter
              (fun m => decide (m.role ≠ Role.system)))).map lookbackLine)) :=
  ⟨by decide,
   lookback_is_last_four_nonsystem
     (Reachable.step _ _ _ _ _ (Reachable.step _ _ _ _ _ (Reachable.init 0)))⟩

/-! ## C4: attachments take precedence; one attachment names the file -/

/-- C4: with any non-empty attachment list the composed reply is the
attachment-focused composition regardless of the classified intent, and
with exactly one attachment the reply contains that attachment's display
name. -/
theorem attachments_take_precedence (ctx : ConversationContext) (rand : Nat)
    (content : Str) (messageType : String) (context : Str)
    (attachments : List Attachment) (h : attachments ≠ []) :
    (craftPersonalizedResponse ctx rand content messageType context attachments
        = generateAttachmentFocusedResponse content attachments messageType) ∧
    (∀ a : Attachment, attachments = [a] →
      a.name <:+: craftPersonalizedResponse ctx rand content messageType
        context attachments) := by
  have hlen : attachments.length ≠ 0 := by
    simpa [List.length_eq_zero] using h
  have hcraft : craftPersonalizedResponse ctx rand content messageType
      context attachments
      = generateAttachmentFocusedResponse content attachments messageType := by
    unfold craftPersonalizedResponse
    simp [hlen]
  refine ⟨hcraft, ?_⟩
  rintro a rfl
  rw [hcraft]
  refine ⟨("Perfect! I\x27ve analyzed your ").data ++ a.type.str
      ++ (" file \"").data,
    ("\" and extracted comprehensive insights. ").data
      ++ (if messageType = "question" then
            ("Based on your question and the file content, here\x27s what I found:\n\n").data
              ++ generateFileSpecificAnswer content a
          else
            ("Here\x27s what I discovered:\n\n").data ++ generateFileInsights a)
      ++ generateNextStepsSuggestions content [a], ?_⟩
  unfold generateAttachmentFocusedResponse
  simp [List.append_assoc]

/-- Witness for C4: one concrete PDF attachment with a question
utterance; the reply names the file. -/
theorem attachments_take_precedence_witness :
    (([Attachment.mk [] "report.pdf".data .pdf 100 none none] :
        List Attachment) ≠ []) ∧
    ("report.pdf".data <:+: craftPersonalizedResponse initialContext 0
      "what is this?".data "question" []
      [Attachment.mk [] "report.pdf".data .pdf 100 none none]) :=
  ⟨by decide,
   (attachments_take_precedence initialContext 0 "what is this?".data
     "question" [] [Attachment.mk [] "report.pdf".data .pdf 100 none none]
     (by decide)).2 _ rfl⟩

/-! ## C5: which action word the request composer uses -/

/-- C5 counterexample: `write a poem` is classified as a request, none
of the seven claimed action words occurs in it, yet the extracted action
word is `write` — not the claimed default `help`; and for `create a plan
to analyze data` the leading action word is `create` (a prefix of the
utterance) while the code extracts `analyze`, the earlier entry of its
nine-word list. -/
theorem action_word_counterexample :
    (analyzeMessageType "write a poem".data = "request") ∧
    (extractActionWord "write a poem".data = "write".data) ∧
    (extractActionWord "write a poem".data ≠ "help".data) ∧
    (∀ w ∈ ["analyze".data, "create".data, "make".data, "generate".data,
        "explain".data, "summarize".data, "help".data],
      containsSub (lowerStr "write a poem".data) w = false) ∧
    (analyzeMessageType "create a plan to analyze data".data = "request") ∧
    (("create".data).isPrefixOf
      (lowerStr "create a plan to analyze data".data) = true) ∧
    (extractActionWord "create a plan to analyze data".data
      = "analyze".data) := by
  decide

/-- `find?` returns exactly the first element satisfying the predicate. -/
theorem find?_first_spec {α : Type} (p : α → Bool) (l : List α) :
    (l.find? p = none ∧ ∀ x ∈ l, p x = false) ∨
    (∃ a pre suf, l = pre ++ a :: suf ∧ p a = true ∧
      (∀ x ∈ pre, p x = false) ∧ l.find? p = some a) := by
  induction l with
  | nil => exact .inl ⟨rfl, by simp⟩
  | cons x xs ih =>
    by_cases hx : p x = true
    · exact .inr ⟨x, [], xs, rfl, hx, by simp,
        by rw [List.find?_cons_of_pos _ hx]⟩
    · have hx2 : p x = false := by simpa using hx
      rcases ih with ⟨hn, hall⟩ | ⟨a, pre, suf, hl, hpa, hpre, hf⟩
      · refine .inl ⟨?_, ?_⟩
        · rw [List.find?_cons_of_neg _ hx, hn]
        · intro y hy
          rcases List.mem_cons.mp hy with rfl | hy
          · exact hx2
          · exact hall y hy
      · refine .inr ⟨a, x :: pre, suf, by simp [hl], hpa, ?_, ?_⟩
        · intro y hy
          rcases List.mem_cons.mp hy with rfl | hy
          · exact hx2
          · exact hpre y hy
        · rw [List.find?_cons_of_neg _ hx, hf]

/-- C5 amended: for every utterance, the composer's action word is the
first element of the ordered nine-word list `actionWords` (which also
holds `write` and `review`) that occurs as a substring *anywhere* in the
lowercased utterance — not the leading match in utterance order —
defaulting to `help` when none occurs; and the request reply embeds the
plan template selected by the switch on that action word. -/
theorem request_action_word_and_template (ctx : ConversationContext)
    (content context : Str) :
    (((∀ w ∈ actionWords, containsSub (lowerStr content) w = false) ∧
        extractActionWord content = "help".data) ∨
      (∃ pre suf, actionWords = pre ++ extractActionWord content :: suf ∧
        containsSub (lowerStr content) (extractActionWord content) = true ∧
        ∀ w ∈ pre, containsSub (lowerStr content) w = false)) ∧
    (requestActionSwitch (extractActionWord content) content
        (extractMainTopic content)
      <:+: generateRequestResponse ctx content context) := by
  constructor
  · rcases find?_first_spec (fun w => containsSub (lowerStr content) w)
        actionWords with ⟨hn, hall⟩ | ⟨a, pre, suf, hl, hpa, hpre, hf⟩
    · left
      refine ⟨hall, ?_⟩
      unfold extractActionWord
      rw [hn]
      rfl
    · right
      have haw : extractActionWord content = a := by
        unfold extractActionWord
        rw [hf]
        rfl
      rw [haw]
      exact ⟨pre, suf, hl, hpa, hpre⟩
  · refine ⟨("I\x27d be happy to ").data ++ extractActionWord content
        ++ (" ").data ++ extractMainTopic content ++ (" for you! ").data
        ++ (if containsSub context "similar".data
              ∨ 0 < ctx.previousQuestions.length then
              ("Building on our previous work together, ").data
            else [])
        ++ ("Here\x27s my approach:\n\n").data,
      ("\n\nI\x27m ready to get started whenever you are. Just let me know if you need any adjustments to this approach!").data, ?_⟩
    unfold generateRequestResponse
    simp [List.append_assoc]

/-! ## C7: the content fingerprint -/

/-- C7 counterexample: for a concrete attachment and creation instant
the fold exceeds `2^31`, so the code's rendering (hexadecimal of the
absolute value of the *signed* 32-bit hash) differs from the claimed
masked-value hexadecimal. -/
theorem fingerprint_differs_from_masked_hex :
    ((generateContentHash (Attachment.mk [] "a.png".data .image 5 none none)
        0).take 8 = "76b82acb".data) ∧
    (specMaskedFingerprint (Attachment.mk [] "a.png".data .image 5 none none)
        0 = "8947d535".data) ∧
    ((generateContentHash (Attachment.mk [] "a.png".data .image 5 none none)
        0).take 8
      ≠ specMaskedFingerprint
          (Attachment.mk [] "a.png".data .image 5 none none) 0) := by
  decide

/-- C7 amended: the fingerprint equals the first 8 hexadecimal
characters of `Math.abs` of the 32-bit fold of
`name-size-category-<instant>` read as a *signed* integer (the fold
itself is masked to 32 bits step by step); it is a pure function of
name, size, category and instant, and it is surfaced in the image
analysis report. -/
theorem image_fingerprint_in_report (a : Attachment) (now : Nat)
    (h : a.type = AttachmentType.image) :
    (generateContentHash a now
        = hexStr (toSigned32 (hashFold (hashSource a now))).natAbs) ∧
    ((generateContentHash a now).take 8 <:+: analyzeAttachmentContent a now) := by
  refine ⟨rfl, ?_⟩
  have hd : analyzeAttachmentContent a now
      = analyzeImageContent a (generateContentHash a now) := by
    unfold analyzeAttachmentContent
    rw [h]
  rw [hd]
  have hsuf : (generateContentHash a now).take 8
      <:+ analyzeImageContent a (generateContentHash a now) := by
    unfold analyzeImageContent
    exact ⟨_, rfl⟩
  exact hsuf.isInfix

/-- Witness for C7 at a concrete image attachment and instant. -/
theorem image_fingerprint_in_report_witness :
    ((Attachment.mk [] "chart.png".data .image 1234 none none).type
        = AttachmentType.image) ∧
    ((generateContentHash
        (Attachment.mk [] "chart.png".data .image 1234 none none) 5).take 8
      <:+: analyzeAttachmentContent
        (Attachment.mk [] "chart.png".data .image 1234 none none) 5) :=
  ⟨rfl, (image_fingerprint_in_report _ 5 rfl).2⟩

/-! ## C8: the concrete text metrics -/

/-- C8: analyzing a text attachment whose content is
`Hello world. This is a test.` — 6 whitespace-separated words, 2
sentence fragments longer than 5 characters after trimming — produces a
report stating word count 6 and sentence count 2. -/
theorem text_metrics_hello_world :
    ((wordsOf "Hello world. This is a test.".data).length = 6) ∧
    ((sentencesOf "Hello world. This is a test.".data).length = 2) ∧
    (("• **Words**: 6 words".data) <:+: analyzeTextContent
      (Attachment.mk [] "notes.txt".data .text 28
        (some "Hello world. This is a test.".data) none)) ∧
    (("• **Sentences**: 2 sentences".data) <:+: analyzeTextContent
      (Attachment.mk [] "notes.txt".data .text 28
        (some "Hello world. This is a test.".data) none)) := by
  decide

end IntelliNLP
